import Mathlib

/-!
Tag actions of fider (`app/actions/tag.go`)

A shallow embedding of the three tag actions (`CreateEditTag`, `DeleteTag`,
`AssignUnassignTag`) and of the collaborators their `Validate` methods call:
the query dispatcher, the validation result, the error values and the colour
regular expression.

Conventions of the embedding:

* a Go `string` is a Lean `String`; Go's builtin `len` on a string is the
  number of bytes of its UTF-8 encoding (`len`), which differs from the number
  of characters (`String.length`) on non-ASCII text;
* a Go pointer that may be `nil` is an `Option`;
* a method with a pointer receiver takes the receiver and returns the updated
  receiver; a call that dereferences `nil` panics, which is recorded in the
  outcome (`Run.ret = none`);
* the dispatcher is an explicit state machine: every handler takes the
  dispatcher state and returns the new one, and every dispatched query is
  appended to a trace.
-/

set_option autoImplicit false

namespace Fider

/-! ## Strings -/

/-- Go's builtin `len` on a string: the number of bytes (UTF-8). -/
def len (s : String) : Nat := s.utf8ByteSize

/-! ## Errors (`app`, `app/pkg/errors`) -/

/-- Modelled from the spec: the error values returned by the dispatcher (Go's
`error` interface; packages `app` and `app/pkg/errors` are outside the source
file). An error is either a package-level value, compared by identity, or an
error that wraps another one with more context. -/
inductive GoError where
  | value (name : String)
  | wrapped (context : String) (inner : GoError)
  deriving DecidableEq, Repr

namespace app

/-- Modelled from the spec: `app.ErrNotFound`, the distinguished "not found"
error value of the dispatcher. -/
def ErrNotFound : GoError := GoError.value "app.ErrNotFound"

end app

namespace errors

/-- Modelled from the spec: `errors.Cause`, the error at the root of a chain
of wrapped errors. -/
def Cause : GoError → GoError
  | GoError.value n => GoError.value n
  | GoError.wrapped _ inner => Cause inner

end errors

/-! ## Business objects (`app/models`) -/

namespace models

/-- Modelled from the spec: `models.Tag`, identified by numeric ID and slug. -/
structure Tag where
  ID : Int
  Name : String
  Slug : String
  Color : String
  IsPublic : Bool
  deriving DecidableEq, Repr

/-- Modelled from the spec: `models.Post`, identified by its number. -/
structure Post where
  ID : Int
  Number : Int
  Title : String
  deriving DecidableEq, Repr

/-- Modelled from the spec: role classification of a caller. -/
inductive Role where
  | visitor
  | collaborator
  | administrator
  deriving DecidableEq, Repr

/-- Modelled from the spec: `models.User`, the caller identity. -/
structure User where
  ID : Int
  Role : Role
  deriving DecidableEq, Repr

/-- Modelled from the spec: `IsAdministrator`. -/
def User.IsAdministrator (u : User) : Bool :=
  decide (u.Role = Role.administrator)

/-- Modelled from the spec: `IsCollaborator`; an administrator is a
collaborator too. -/
def User.IsCollaborator (u : User) : Bool :=
  decide (u.Role = Role.collaborator) || decide (u.Role = Role.administrator)

/-- Input model of the create/edit action (`models.CreateEditTag`). -/
structure CreateEditTag where
  Slug : String
  Name : String
  Color : String
  IsPublic : Bool
  deriving DecidableEq, Repr

/-- Input model of the delete action (`models.DeleteTag`). -/
structure DeleteTag where
  Slug : String
  deriving DecidableEq, Repr

/-- Input model of the assign/unassign action (`models.AssignUnassignTag`). -/
structure AssignUnassignTag where
  Slug : String
  Number : Int
  deriving DecidableEq, Repr

end models

/-! ## Validation result (`app/pkg/validate`) -/

namespace validate

/-- Modelled from the spec: `validate.Result`, a top-level error (set when
validation was aborted) and a mapping from field name to the ordered list of
its failure messages, kept in order of first insertion. -/
structure Result where
  Err : Option GoError
  Failures : List (String × List String)
  deriving DecidableEq, Repr

/-- Modelled from the spec: `validate.Success()`, the empty-failure state. -/
def Success : Result := { Err := none, Failures := [] }

/-- Modelled from the spec: `validate.Error(err)`, a failed result that
carries only the top-level error. -/
def Error (err : GoError) : Result := { Err := some err, Failures := [] }

/-- Appends `message` to the messages of `field` in a failure mapping. -/
def addTo (field message : String) :
    List (String × List String) → List (String × List String)
  | [] => [(field, [message])]
  | (k, ms) :: rest =>
    if k = field then (k, ms ++ [message]) :: rest
    else (k, ms) :: addTo field message rest

/-- Modelled from the spec: `Result.AddFieldFailure(field, message)`. -/
def Result.AddFieldFailure (r : Result) (field message : String) : Result :=
  { r with Failures := addTo field message r.Failures }

/-- The messages recorded under `field` (empty when the key is absent). -/
def messagesOf (field : String) : List (String × List String) → List String
  | [] => []
  | (k, ms) :: rest => if k = field then ms else messagesOf field rest

/-- The messages a result holds for `field`. -/
def Result.Messages (r : Result) (field : String) : List String :=
  messagesOf field r.Failures

/-- A result is a success when it has no error and no field failure. -/
def Result.Ok (r : Result) : Bool :=
  r.Err.isNone && r.Failures.isEmpty

end validate

/-! ## Dispatcher (`app/pkg/bus`, `app/models/query`) -/

namespace query

/-- Query `GetTagBySlug`: the parameter and the `Result` the handler sets. -/
structure GetTagBySlug where
  Slug : String
  Result : Option models.Tag
  deriving DecidableEq, Repr

/-- Query `GetPostByNumber`: the parameter and the `Result` the handler sets. -/
structure GetPostByNumber where
  Number : Int
  Result : Option models.Post
  deriving DecidableEq, Repr

end query

/-- A dispatched query, as recorded in the trace. -/
inductive Sent where
  | GetTagBySlug (slug : String)
  | GetPostByNumber (number : Int)
  deriving DecidableEq, Repr

/-- What a handler answers: the error returned by the dispatch (if any) and
the value written into the query's `Result` field (possibly `nil`). -/
structure Reply (α : Type) where
  Err : Option GoError
  Result : Option α
  deriving DecidableEq, Repr

/-- Modelled from the spec: the registered handlers of the dispatcher, over a
dispatcher state `σ` (the persistence layer behind it). -/
structure Bus (σ : Type) where
  GetTagBySlug : σ → String → Reply models.Tag × σ
  GetPostByNumber : σ → Int → Reply models.Post × σ

/-- The world a `Validate` call runs in: the dispatcher state and the trace of
the queries dispatched so far (oldest first). -/
structure World (σ : Type) where
  state : σ
  trace : List Sent

namespace bus

variable {σ : Type}

/-- Modelled from the spec: `bus.Dispatch(ctx, q)` for one `GetTagBySlug`
query: the handler runs, the query's `Result` is set in place, the error is
returned. -/
def Dispatch (b : Bus σ) (w : World σ) (q : query.GetTagBySlug) :
    Option GoError × query.GetTagBySlug × World σ :=
  let r := b.GetTagBySlug w.state q.Slug
  (r.1.Err, { q with Result := r.1.Result },
    { state := r.2, trace := w.trace ++ [Sent.GetTagBySlug q.Slug] })

/-- Modelled from the spec: `bus.Dispatch(ctx, q)` for one `GetPostByNumber`
query. -/
def DispatchPost (b : Bus σ) (w : World σ) (q : query.GetPostByNumber) :
    Option GoError × query.GetPostByNumber × World σ :=
  let r := b.GetPostByNumber w.state q.Number
  (r.1.Err, { q with Result := r.1.Result },
    { state := r.2, trace := w.trace ++ [Sent.GetPostByNumber q.Number] })

/-- Modelled from the spec: `bus.Dispatch(ctx, getPost, getSlug)`, several
queries in one call, in order, stopping at the first failure. -/
def Dispatch2 (b : Bus σ) (w : World σ) (p : query.GetPostByNumber)
    (q : query.GetTagBySlug) :
    Option GoError × query.GetPostByNumber × query.GetTagBySlug × World σ :=
  match DispatchPost b w p with
  | (some err, p1, w1) => (some err, p1, q, w1)
  | (none, p1, w1) =>
    match Dispatch b w1 q with
    | (err, q1, w2) => (err, p1, q1, w2)

end bus

/-! ## Regular expressions (`regexp`) -/

namespace regexp

/-- Syntax tree of the regular expressions needed for `colorRegex`. -/
inductive Regexp where
  /-- The anchor written ^ : the beginning of the text. -/
  | BeginText
  /-- The anchor written $ : the end of the text (no multi-line flag). -/
  | EndText
  /-- A character class given by its inclusive ranges. -/
  | CharClass (ranges : List (Char × Char))
  /-- Exactly `n` repetitions, written re{n}. -/
  | Repeat (re : Regexp) (n : Nat)
  /-- Concatenation. -/
  | Concat (first second : Regexp)
  /-- A capturing group, written (re). -/
  | Capture (re : Regexp)
  deriving Repr

/-- Membership of a character in a class given by inclusive ranges. -/
def inClass (ranges : List (Char × Char)) (c : Char) : Bool :=
  ranges.any fun r => decide (r.1 ≤ c) && decide (c ≤ r.2)

/-- Applies `f` to every reachable position, `n` times in a row. -/
def times (f : Nat × List Char → List (Nat × List Char)) :
    Nat → List (Nat × List Char) → List (Nat × List Char)
  | 0, sts => sts
  | n + 1, sts => times f n (sts.flatMap f)

/-- All ways an expression can match at a position: a position is the number
of characters already consumed and the rest of the text; the result lists the
positions reached after the match. -/
def Regexp.run : Regexp → Nat × List Char → List (Nat × List Char)
  | Regexp.BeginText, st => if st.1 = 0 then [st] else []
  | Regexp.EndText, st => if st.2.isEmpty then [st] else []
  | Regexp.CharClass ranges, st =>
    match st.2 with
    | [] => []
    | c :: rest => if inClass ranges c then [(st.1 + 1, rest)] else []
  | Regexp.Repeat re n, st => times (Regexp.run re) n [st]
  | Regexp.Concat first second, st => (Regexp.run first st).flatMap (Regexp.run second)
  | Regexp.Capture re, st => Regexp.run re st

/-- The method `MatchString`: whether the text contains a match of the
expression, starting at any offset. -/
def Regexp.MatchString (re : Regexp) (s : String) : Bool :=
  (List.range (s.data.length + 1)).any fun i =>
    !(Regexp.run re (i, s.data.drop i)).isEmpty

end regexp

/-! ## The actions (`app/actions/tag.go`) -/

namespace actions

open regexp

variable {σ : Type}

/-- The package variable `colorRegex`, the compiled form of the pattern
^([A-Fa-f0-9]\x7b6\x7d)$ (line 17). -/
def colorRegex : Regexp :=
  Regexp.Concat Regexp.BeginText
    (Regexp.Concat
      (Regexp.Capture
        (Regexp.Repeat (Regexp.CharClass [('A', 'F'), ('a', 'f'), ('0', '9')]) 6))
      Regexp.EndText)

/-- Outcome of a `Validate` call: the returned result (`none` when the call
panicked on a nil dereference), the action after the call and the world after
the call. -/
structure Run (α σ : Type) where
  ret : Option validate.Result
  action : α
  world : World σ

/-- How a block of statements ends: control goes on with the accumulated
result, the function returns a result, or the function panics. -/
inductive Flow where
  | next (result : validate.Result)
  | ret (result : validate.Result)
  | panic
  deriving DecidableEq, Repr

/-- CreateEditTag is used to create a new tag or edit existing (lines 20-23). -/
structure CreateEditTag where
  Tag : Option models.Tag
  Model : Option models.CreateEditTag
  deriving DecidableEq, Repr

/-- BindTarget of CreateEditTag (lines 26-29): a new, zero-valued model. -/
def CreateEditTag.BindTarget (action : CreateEditTag) : CreateEditTag :=
  { action with Model := some { Slug := "", Name := "", Color := "", IsPublic := false } }

/-- IsAuthorized of CreateEditTag (lines 32-34). -/
def CreateEditTag.IsAuthorized (_action : CreateEditTag) (user : Option models.User) : Bool :=
  match user with
  | none => false
  | some u => u.IsAdministrator

/-- The checks on Name of `CreateEditTag.Validate` (lines 49-61). `tag` is the
value of `action.Tag` at that point. -/
def CreateEditTag.checkName (b : Bus σ) (slugMake : String → String)
    (tag : Option models.Tag) (model : models.CreateEditTag) (w : World σ)
    (result : validate.Result) : Flow × World σ :=
  if model.Name = "" then
    (Flow.next (result.AddFieldFailure "name" "Name is required."), w)
  else if len model.Name > 30 then
    (Flow.next (result.AddFieldFailure "name" "Name must have less than 30 characters."), w)
  else
    match bus.Dispatch b w { Slug := slugMake model.Name, Result := none } with
    | (some err, _, w1) =>
      if errors.Cause err ≠ app.ErrNotFound then (Flow.ret (validate.Error err), w1)
      else (Flow.next result, w1)
    | (none, getDuplicateSlug, w1) =>
      match tag with
      | none =>
        (Flow.next (result.AddFieldFailure "name" "This tag name is already in use."), w1)
      | some t =>
        match getDuplicateSlug.Result with
        | none => (Flow.panic, w1)
        | some d =>
          if t.ID ≠ d.ID then
            (Flow.next (result.AddFieldFailure "name" "This tag name is already in use."), w1)
          else (Flow.next result, w1)

/-- The checks on Color of `CreateEditTag.Validate` (lines 63-69). -/
def CreateEditTag.checkColor (model : models.CreateEditTag)
    (result : validate.Result) : validate.Result :=
  if model.Color = "" then
    result.AddFieldFailure "color" "Color is required."
  else if len model.Color ≠ 6 then
    result.AddFieldFailure "color" "Color must be exactly 6 characters."
  else if !colorRegex.MatchString model.Color then
    result.AddFieldFailure "color" "Color is invalid."
  else result

/-- Lines 49-71 of `CreateEditTag.Validate`: the checks on Name, then the
checks on Color, then `return result`. -/
def CreateEditTag.checkFields (b : Bus σ) (slugMake : String → String)
    (action : CreateEditTag) (model : models.CreateEditTag) (w : World σ)
    (result : validate.Result) : Run CreateEditTag σ :=
  match CreateEditTag.checkName b slugMake action.Tag model w result with
  | (Flow.next r, w1) => ⟨some (CreateEditTag.checkColor model r), action, w1⟩
  | (Flow.ret r, w1) => ⟨some r, action, w1⟩
  | (Flow.panic, w1) => ⟨none, action, w1⟩

/-- Validate of CreateEditTag (lines 37-72). `slugMake` is `slug.Make` of the
external slug library. -/
def CreateEditTag.Validate (b : Bus σ) (slugMake : String → String)
    (action : CreateEditTag) (w : World σ) (_user : Option models.User) :
    Run CreateEditTag σ :=
  match action.Model with
  | none => ⟨none, action, w⟩
  | some model =>
    let result := validate.Success
    if model.Slug ≠ "" then
      match bus.Dispatch b w { Slug := model.Slug, Result := none } with
      | (some err, _, w1) => ⟨some (validate.Error err), action, w1⟩
      | (none, getSlug, w1) =>
        CreateEditTag.checkFields b slugMake { action with Tag := getSlug.Result }
          model w1 result
    else
      CreateEditTag.checkFields b slugMake action model w result

/-- DeleteTag is used to delete an existing tag (lines 75-78). -/
structure DeleteTag where
  Tag : Option models.Tag
  Model : Option models.DeleteTag
  deriving DecidableEq, Repr

/-- BindTarget of DeleteTag (lines 81-84). -/
def DeleteTag.BindTarget (action : DeleteTag) : DeleteTag :=
  { action with Model := some { Slug := "" } }

/-- IsAuthorized of DeleteTag (lines 87-89). -/
def DeleteTag.IsAuthorized (_action : DeleteTag) (user : Option models.User) : Bool :=
  match user with
  | none => false
  | some u => u.IsAdministrator

/-- Validate of DeleteTag (lines 92-101). -/
def DeleteTag.Validate (b : Bus σ) (action : DeleteTag) (w : World σ)
    (_user : Option models.User) : Run DeleteTag σ :=
  match action.Model with
  | none => ⟨none, action, w⟩
  | some model =>
    match bus.Dispatch b w { Slug := model.Slug, Result := none } with
    | (some err, _, w1) => ⟨some (validate.Error err), action, w1⟩
    | (none, getSlug, w1) =>
      ⟨some validate.Success, { action with Tag := getSlug.Result }, w1⟩

/-- AssignUnassignTag is used to assign or remove a tag to/from an post
(lines 104-108). -/
structure AssignUnassignTag where
  Tag : Option models.Tag
  Post : Option models.Post
  Model : Option models.AssignUnassignTag
  deriving DecidableEq, Repr

/-- BindTarget of AssignUnassignTag (lines 111-114). -/
def AssignUnassignTag.BindTarget (action : AssignUnassignTag) : AssignUnassignTag :=
  { action with Model := some { Slug := "", Number := 0 } }

/-- IsAuthorized of AssignUnassignTag (lines 117-119). -/
def AssignUnassignTag.IsAuthorized (_action : AssignUnassignTag)
    (user : Option models.User) : Bool :=
  match user with
  | none => false
  | some u => u.IsCollaborator

/-- Validate of AssignUnassignTag (lines 122-132). -/
def AssignUnassignTag.Validate (b : Bus σ) (action : AssignUnassignTag) (w : World σ)
    (_user : Option models.User) : Run AssignUnassignTag σ :=
  match action.Model with
  | none => ⟨none, action, w⟩
  | some model =>
    match bus.Dispatch2 b w { Number := model.Number, Result := none }
        { Slug := model.Slug, Result := none } with
    | (some err, _, _, w1) => ⟨some (validate.Error err), action, w1⟩
    | (none, getPost, getSlug, w1) =>
      ⟨some validate.Success,
        { action with Post := getPost.Result, Tag := getSlug.Result }, w1⟩

end actions

/-! ## A dispatcher over a fixed table of tags and posts -/

/-- A read-only store: the tags and posts that exist. -/
structure Store where
  tags : List models.Tag
  posts : List models.Post
  deriving DecidableEq, Repr

/-- The dispatcher of a store: a lookup answers with the first matching
entity, or with `app.ErrNotFound`; the store never changes. -/
def Store.bus : Bus Store where
  GetTagBySlug := fun s slug =>
    match s.tags.find? (fun t => decide (t.Slug = slug)) with
    | some t => ({ Err := none, Result := some t }, s)
    | none => ({ Err := some app.ErrNotFound, Result := none }, s)
  GetPostByNumber := fun s number =>
    match s.posts.find? (fun p => decide (p.Number = number)) with
    | some p => ({ Err := none, Result := some p }, s)
    | none => ({ Err := some app.ErrNotFound, Result := none }, s)

/-- A dispatcher whose every query fails with the same error. -/
def failingBus (err : GoError) : Bus Unit where
  GetTagBySlug := fun s _ => ({ Err := some err, Result := none }, s)
  GetPostByNumber := fun s _ => ({ Err := some err, Result := none }, s)

/-- A stand-in for `slug.Make` on names made of ASCII letters and digits: the
name in lower case. -/
def plainSlug (s : String) : String := String.mk (s.data.map Char.toLower)

/-- A dispatcher that goes down: while the countdown in its state is positive
a tag lookup answers with `tag`, afterwards every query fails with `err`. -/
def outageBus (tag : models.Tag) (err : GoError) : Bus Nat where
  GetTagBySlug := fun n _ =>
    match n with
    | 0 => ({ Err := some err, Result := none }, 0)
    | k + 1 => ({ Err := none, Result := some tag }, k)
  GetPostByNumber := fun n _ => ({ Err := some err, Result := none }, n)

/-- A dispatcher that returns no error and leaves the `Result` of every query
nil. -/
def nilResultBus : Bus Unit where
  GetTagBySlug := fun s _ => ({ Err := none, Result := none }, s)
  GetPostByNumber := fun s _ => ({ Err := none, Result := none }, s)

/-- An infrastructure error of the dispatcher. -/
def dbDown : GoError := GoError.wrapped "get tag" (GoError.value "connection refused")

/-- A tag with slug `bug`. -/
def bugTag : models.Tag :=
  { ID := 1, Name := "bug", Slug := "bug", Color := "ff0000", IsPublic := true }

/-- A tag with slug `feature`. -/
def featureTag : models.Tag :=
  { ID := 2, Name := "feature", Slug := "feature", Color := "00ff00", IsPublic := true }

/-- A store with the two tags `bug` and `feature` and one post. -/
def twoTags : Store :=
  { tags := [bugTag, featureTag], posts := [{ ID := 10, Number := 1, Title := "First" }] }

/-- The empty store. -/
def noTags : Store := { tags := [], posts := [] }

/-! ## Predicates used to state the properties -/

/-- A hexadecimal digit: 0-9, a-f or A-F. -/
def isHexDigit (c : Char) : Bool :=
  (decide ('0' ≤ c) && decide (c ≤ '9')) || (decide ('a' ≤ c) && decide (c ≤ 'f'))
    || (decide ('A' ≤ c) && decide (c ≤ 'F'))

/-- A string of exactly six characters, all of them hexadecimal digits. -/
def SixHexDigits (s : String) : Bool :=
  decide (s.length = 6) && s.data.all isHexDigit

/-- A dispatcher whose answers do not change: no handler changes the
dispatcher state, so every answer is a fixed function of the query. -/
def ReadOnly {σ : Type} (b : Bus σ) : Prop :=
  (∀ s slug, (b.GetTagBySlug s slug).2 = s) ∧ (∀ s n, (b.GetPostByNumber s n).2 = s)

/-- A dispatcher that sets a non-nil `Result` on every tag query for which it
returns no error. -/
def SetsResult {σ : Type} (b : Bus σ) : Prop :=
  ∀ s slug, (b.GetTagBySlug s slug).1.Err = none → (b.GetTagBySlug s slug).1.Result ≠ none

/-- The dispatcher state in which the Name checks of `CreateEditTag.Validate`
run (line 49): the initial state when `Model.Slug` is empty, else the state
the edit-mode slug lookup left (lines 41-42). -/
def stateAtNameChecks {σ : Type} (b : Bus σ) (model : models.CreateEditTag)
    (w : World σ) : σ :=
  if model.Slug = "" then w.state else (b.GetTagBySlug w.state model.Slug).2

/-- The value of `action.Tag` when the Name checks of `CreateEditTag.Validate`
run, in a run whose edit-mode slug lookup (if any) returned no error: the
`Tag` of the action when `Model.Slug` is empty, else the `Result` of the slug
lookup (line 46). -/
def tagAtNameChecks {σ : Type} (b : Bus σ) (action : actions.CreateEditTag)
    (model : models.CreateEditTag) (w : World σ) : Option models.Tag :=
  if model.Slug = "" then action.Tag else (b.GetTagBySlug w.state model.Slug).1.Result

/-- A caller with the regular role. -/
def regularUser : models.User := { ID := 1, Role := models.Role.visitor }

/-- A caller with the collaborator role. -/
def collaboratorUser : models.User := { ID := 2, Role := models.Role.collaborator }

/-- A caller with the administrator role. -/
def administratorUser : models.User := { ID := 3, Role := models.Role.administrator }

end Fider

/-! ## Lemmas on the validation result -/

namespace Fider

open actions

variable {σ : Type}

theorem messagesOf_addTo_same (field message : String) (l : List (String × List String)) :
    validate.messagesOf field (validate.addTo field message l)
      = validate.messagesOf field l ++ [message] := by
  induction l with
  | nil => simp [validate.addTo, validate.messagesOf]
  | cons kv rest ih =>
    obtain ⟨k, ms⟩ := kv
    by_cases hk : k = field
    · simp [validate.addTo, validate.messagesOf, hk]
    · simp [validate.addTo, validate.messagesOf, hk, ih]

theorem messagesOf_addTo_other (field other message : String) (h : other ≠ field)
    (l : List (String × List String)) :
    validate.messagesOf other (validate.addTo field message l)
      = validate.messagesOf other l := by
  induction l with
  | nil => simp [validate.addTo, validate.messagesOf, h.symm]
  | cons kv rest ih =>
    obtain ⟨k, ms⟩ := kv
    by_cases hk : k = field
    · subst hk
      simp [validate.addTo, validate.messagesOf, h.symm]
    · by_cases hk2 : k = other
      · subst hk2
        simp [validate.addTo, validate.messagesOf, h]
      · simp [validate.addTo, validate.messagesOf, hk, hk2, ih]

theorem Messages_add_same (r : validate.Result) (field message : String) :
    (r.AddFieldFailure field message).Messages field = r.Messages field ++ [message] := by
  simp [validate.Result.AddFieldFailure, validate.Result.Messages, messagesOf_addTo_same]

theorem Messages_add_other (r : validate.Result) (field other message : String)
    (h : other ≠ field) :
    (r.AddFieldFailure field message).Messages other = r.Messages other := by
  simp [validate.Result.AddFieldFailure, validate.Result.Messages,
    messagesOf_addTo_other field other message h]

theorem Err_add (r : validate.Result) (field message : String) :
    (r.AddFieldFailure field message).Err = r.Err := rfl

theorem checkColor_Err (model : models.CreateEditTag) (r : validate.Result) :
    (CreateEditTag.checkColor model r).Err = r.Err := by
  unfold CreateEditTag.checkColor
  split_ifs <;> simp [Err_add]

theorem checkColor_name (model : models.CreateEditTag) (r : validate.Result) :
    (CreateEditTag.checkColor model r).Messages "name" = r.Messages "name" := by
  unfold CreateEditTag.checkColor
  split_ifs <;> simp [Messages_add_other]

/-! ## CreateEditTag.Validate: fatal dispatcher errors -/

/-- C1: in `CreateEditTag.Validate`, a dispatcher error `e` whose cause is not
`app.ErrNotFound` is returned at once as the top-level error of a result with
no field failure (whatever Color is), and the failing query is the last one
dispatched. This holds (1) when the edit-mode slug lookup returns `e`, and
when the duplicate-slug lookup returns `e`, (2) in create mode and (3) after
a successful edit-mode lookup. -/
theorem C1_fatal_error_returned_at_once (b : Bus σ) (slugMake : String → String)
    (action : CreateEditTag) (model : models.CreateEditTag) (w : World σ)
    (user : Option models.User) (e : GoError)
    (hm : action.Model = some model)
    (he : errors.Cause e ≠ app.ErrNotFound) :
    (model.Slug ≠ "" →
      (b.GetTagBySlug w.state model.Slug).1.Err = some e →
      (CreateEditTag.Validate b slugMake action w user).ret
          = some { Err := some e, Failures := [] }
        ∧ (CreateEditTag.Validate b slugMake action w user).world.trace
          = w.trace ++ [Sent.GetTagBySlug model.Slug]
        ∧ (CreateEditTag.Validate b slugMake action w user).world.state
          = (b.GetTagBySlug w.state model.Slug).2)
    ∧ (model.Slug = "" → model.Name ≠ "" → len model.Name ≤ 30 →
      (b.GetTagBySlug w.state (slugMake model.Name)).1.Err = some e →
      (CreateEditTag.Validate b slugMake action w user).ret
          = some { Err := some e, Failures := [] }
        ∧ (CreateEditTag.Validate b slugMake action w user).world.trace
          = w.trace ++ [Sent.GetTagBySlug (slugMake model.Name)]
        ∧ (CreateEditTag.Validate b slugMake action w user).world.state
          = (b.GetTagBySlug w.state (slugMake model.Name)).2)
    ∧ (model.Slug ≠ "" → model.Name ≠ "" → len model.Name ≤ 30 →
      (b.GetTagBySlug w.state model.Slug).1.Err = none →
      (b.GetTagBySlug (b.GetTagBySlug w.state model.Slug).2
          (slugMake model.Name)).1.Err = some e →
      (CreateEditTag.Validate b slugMake action w user).ret
          = some { Err := some e, Failures := [] }
        ∧ (CreateEditTag.Validate b slugMake action w user).world.trace
          = w.trace ++ [Sent.GetTagBySlug model.Slug,
              Sent.GetTagBySlug (slugMake model.Name)]
        ∧ (CreateEditTag.Validate b slugMake action w user).world.state
          = (b.GetTagBySlug (b.GetTagBySlug w.state model.Slug).2
              (slugMake model.Name)).2) := by
  refine ⟨?_, ?_, ?_⟩
  · intro hs h1
    simp [CreateEditTag.Validate, hm, hs, bus.Dispatch, h1, validate.Error]
  · intro hs hn hl h2
    have hl2 : ¬ len model.Name > 30 := by omega
    simp [CreateEditTag.Validate, hm, hs, CreateEditTag.checkFields,
      CreateEditTag.checkName, hn, hl2, bus.Dispatch, h2, he, validate.Error]
  · intro hs hn hl h1 h2
    have hl2 : ¬ len model.Name > 30 := by omega
    simp [CreateEditTag.Validate, hm, hs, CreateEditTag.checkFields,
      CreateEditTag.checkName, hn, hl2, bus.Dispatch, h1, h2, he, validate.Error]

/-- Witness of C1 on three runs: the edit lookup fails; the duplicate lookup
fails in create mode; the duplicate lookup fails after the edit lookup
succeeded. Name and Color are invalid or Color is invalid in each. -/
theorem C1_fatal_error_returned_at_once_witness :
    ((CreateEditTag.Validate (failingBus dbDown) plainSlug
        ⟨none, some ⟨"bug", "", "zzzzzz", true⟩⟩ ⟨(), []⟩ none).ret
        = some { Err := some dbDown, Failures := [] }
      ∧ (CreateEditTag.Validate (failingBus dbDown) plainSlug
        ⟨none, some ⟨"bug", "", "zzzzzz", true⟩⟩ ⟨(), []⟩ none).world.trace
        = [] ++ [Sent.GetTagBySlug "bug"]
      ∧ (CreateEditTag.Validate (failingBus dbDown) plainSlug
        ⟨none, some ⟨"bug", "", "zzzzzz", true⟩⟩ ⟨(), []⟩ none).world.state
        = ())
    ∧ ((CreateEditTag.Validate (failingBus dbDown) plainSlug
        ⟨none, some ⟨"", "bug", "zzzzzz", true⟩⟩ ⟨(), []⟩ none).ret
        = some { Err := some dbDown, Failures := [] }
      ∧ (CreateEditTag.Validate (failingBus dbDown) plainSlug
        ⟨none, some ⟨"", "bug", "zzzzzz", true⟩⟩ ⟨(), []⟩ none).world.trace
        = [] ++ [Sent.GetTagBySlug "bug"]
      ∧ (CreateEditTag.Validate (failingBus dbDown) plainSlug
        ⟨none, some ⟨"", "bug", "zzzzzz", true⟩⟩ ⟨(), []⟩ none).world.state
        = ())
    ∧ ((CreateEditTag.Validate (outageBus bugTag dbDown) plainSlug
        ⟨none, some ⟨"bug", "insect", "", true⟩⟩ ⟨1, []⟩ none).ret
        = some { Err := some dbDown, Failures := [] }
      ∧ (CreateEditTag.Validate (outageBus bugTag dbDown) plainSlug
        ⟨none, some ⟨"bug", "insect", "", true⟩⟩ ⟨1, []⟩ none).world.trace
        = [] ++ [Sent.GetTagBySlug "bug", Sent.GetTagBySlug "insect"]
      ∧ (CreateEditTag.Validate (outageBus bugTag dbDown) plainSlug
        ⟨none, some ⟨"bug", "insect", "", true⟩⟩ ⟨1, []⟩ none).world.state
        = 0) :=
  ⟨(C1_fatal_error_returned_at_once (failingBus dbDown) plainSlug
      ⟨none, some ⟨"bug", "", "zzzzzz", true⟩⟩ ⟨"bug", "", "zzzzzz", true⟩ ⟨(), []⟩ none
      dbDown rfl (by decide)).1 (by decide) rfl,
   (C1_fatal_error_returned_at_once (failingBus dbDown) plainSlug
      ⟨none, some ⟨"", "bug", "zzzzzz", true⟩⟩ ⟨"", "bug", "zzzzzz", true⟩ ⟨(), []⟩ none
      dbDown rfl (by decide)).2.1 rfl (by decide) (by decide) rfl,
   (C1_fatal_error_returned_at_once (outageBus bugTag dbDown) plainSlug
      ⟨none, some ⟨"bug", "insect", "", true⟩⟩ ⟨"bug", "insect", "", true⟩ ⟨1, []⟩ none
      dbDown rfl (by decide)).2.2 (by decide) (by decide) (by decide) rfl rfl⟩

/-- C2, as stated, fails: with the slug `missing` supplied and no such tag, the
slug lookup returns `app.ErrNotFound`, and `Validate` returns that very error
at once. The Name and Color checks are not reached: Name and Color are both
empty here and no failure is recorded, and only the slug lookup was
dispatched. -/
theorem C2_not_found_of_edit_lookup_is_returned :
    (Store.bus.GetTagBySlug noTags "missing").1.Err = some app.ErrNotFound
    ∧ (CreateEditTag.Validate Store.bus plainSlug
        ⟨none, some ⟨"missing", "", "", true⟩⟩ ⟨noTags, []⟩ none).ret
        = some { Err := some app.ErrNotFound, Failures := [] }
    ∧ (CreateEditTag.Validate Store.bus plainSlug
        ⟨none, some ⟨"missing", "", "", true⟩⟩ ⟨noTags, []⟩ none).world.trace
        = [Sent.GetTagBySlug "missing"] := by
  decide

/-- C2, amended: with a non-empty `Model.Slug`, every error of the slug lookup,
not-found included, is fatal: `Validate` returns a result whose top-level
error is that error, with no field failure, leaves the action as it was, and
dispatches nothing after the slug lookup. -/
theorem C2_edit_lookup_error_is_always_fatal (b : Bus σ) (slugMake : String → String)
    (action : CreateEditTag) (model : models.CreateEditTag) (w : World σ)
    (user : Option models.User) (e : GoError)
    (hm : action.Model = some model)
    (hs : model.Slug ≠ "")
    (h1 : (b.GetTagBySlug w.state model.Slug).1.Err = some e) :
    (CreateEditTag.Validate b slugMake action w user).ret
        = some { Err := some e, Failures := [] }
      ∧ (CreateEditTag.Validate b slugMake action w user).action = action
      ∧ (CreateEditTag.Validate b slugMake action w user).world.trace
        = w.trace ++ [Sent.GetTagBySlug model.Slug] := by
  simp [CreateEditTag.Validate, hm, hs, bus.Dispatch, h1, validate.Error]

/-- Witness of the amended C2: a not-found error wrapped with context, returned
by the slug lookup, is fatal as well. -/
theorem C2_edit_lookup_error_is_always_fatal_witness :
    (CreateEditTag.Validate (failingBus (GoError.wrapped "tag" app.ErrNotFound)) plainSlug
        ⟨some featureTag, some ⟨"bug", "insect", "ff00aa", true⟩⟩ ⟨(), []⟩ none).ret
        = some { Err := some (GoError.wrapped "tag" app.ErrNotFound), Failures := [] }
      ∧ (CreateEditTag.Validate (failingBus (GoError.wrapped "tag" app.ErrNotFound)) plainSlug
        ⟨some featureTag, some ⟨"bug", "insect", "ff00aa", true⟩⟩ ⟨(), []⟩ none).action
        = ⟨some featureTag, some ⟨"bug", "insect", "ff00aa", true⟩⟩
      ∧ (CreateEditTag.Validate (failingBus (GoError.wrapped "tag" app.ErrNotFound)) plainSlug
        ⟨some featureTag, some ⟨"bug", "insect", "ff00aa", true⟩⟩ ⟨(), []⟩ none).world.trace
        = [] ++ [Sent.GetTagBySlug "bug"] :=
  C2_edit_lookup_error_is_always_fatal (failingBus (GoError.wrapped "tag" app.ErrNotFound))
    plainSlug ⟨some featureTag, some ⟨"bug", "insect", "ff00aa", true⟩⟩
    ⟨"bug", "insect", "ff00aa", true⟩ ⟨(), []⟩ none
    (GoError.wrapped "tag" app.ErrNotFound) rfl (by decide) rfl

/-! ## CreateEditTag.Validate: the checks on Name -/

theorem Messages_Success (field : String) : validate.Success.Messages field = [] := rfl

/-- C3: for a non-empty Name within the length limit, when the lookup of
`slug.Make(Name)` succeeds with a tag `D` and either no tag is being edited or
the tag being edited has another ID than `D`, `Validate` returns a result
without top-level error whose `name` key holds exactly
"This tag name is already in use.": (1) in create mode (empty `Model.Slug`),
where the tag being edited is the action's `Tag` field; (2) in edit mode,
where it is the tag resolved by the slug lookup. -/
theorem C3_duplicate_name_of_another_tag_is_reported (b : Bus σ)
    (slugMake : String → String) (action : CreateEditTag)
    (model : models.CreateEditTag) (w : World σ) (user : Option models.User)
    (D : models.Tag)
    (hm : action.Model = some model)
    (hn : model.Name ≠ "") (hl : len model.Name ≤ 30) :
    (model.Slug = "" →
      (b.GetTagBySlug w.state (slugMake model.Name)).1
          = { Err := none, Result := some D } →
      (action.Tag = none ∨ ∃ t, action.Tag = some t ∧ t.ID ≠ D.ID) →
      ∃ r, (CreateEditTag.Validate b slugMake action w user).ret = some r
        ∧ r.Err = none
        ∧ r.Messages "name" = ["This tag name is already in use."])
    ∧ (model.Slug ≠ "" →
      (b.GetTagBySlug w.state model.Slug).1.Err = none →
      (b.GetTagBySlug (b.GetTagBySlug w.state model.Slug).2 (slugMake model.Name)).1
          = { Err := none, Result := some D } →
      ((b.GetTagBySlug w.state model.Slug).1.Result = none
        ∨ ∃ t, (b.GetTagBySlug w.state model.Slug).1.Result = some t ∧ t.ID ≠ D.ID) →
      ∃ r, (CreateEditTag.Validate b slugMake action w user).ret = some r
        ∧ r.Err = none
        ∧ r.Messages "name" = ["This tag name is already in use."]) := by
  have hl2 : ¬ len model.Name > 30 := by omega
  refine ⟨?_, ?_⟩
  · intro hs h2 ht
    rcases ht with ht | ⟨t, ht, hid⟩
    · simp [CreateEditTag.Validate, hm, hs, CreateEditTag.checkFields,
        CreateEditTag.checkName, hn, hl2, bus.Dispatch, h2, ht, checkColor_Err,
        checkColor_name, Messages_add_same, Err_add, Messages_Success]
      rfl
    · simp [CreateEditTag.Validate, hm, hs, CreateEditTag.checkFields,
        CreateEditTag.checkName, hn, hl2, bus.Dispatch, h2, ht, hid, checkColor_Err,
        checkColor_name, Messages_add_same, Err_add, Messages_Success]
      rfl
  · intro hs h1 h2 ht
    rcases ht with ht | ⟨t, ht, hid⟩
    · simp [CreateEditTag.Validate, hm, hs, CreateEditTag.checkFields,
        CreateEditTag.checkName, hn, hl2, bus.Dispatch, h1, h2, ht, checkColor_Err,
        checkColor_name, Messages_add_same, Err_add, Messages_Success]
      rfl
    · simp [CreateEditTag.Validate, hm, hs, CreateEditTag.checkFields,
        CreateEditTag.checkName, hn, hl2, bus.Dispatch, h1, h2, ht, hid, checkColor_Err,
        checkColor_name, Messages_add_same, Err_add, Messages_Success]
      rfl

/-- Witness of C3 on the store with the tags `bug` (ID 1) and `feature` (ID 2):
creating a tag named `bug`, and renaming `feature` to `bug`, both report that
the name is in use; Color is invalid in the first run and valid in the second. -/
theorem C3_duplicate_name_of_another_tag_is_reported_witness :
    (∃ r, (CreateEditTag.Validate Store.bus plainSlug
        ⟨none, some ⟨"", "bug", "zzzzzz", true⟩⟩ ⟨twoTags, []⟩ none).ret = some r
      ∧ r.Err = none ∧ r.Messages "name" = ["This tag name is already in use."])
    ∧ (∃ r, (CreateEditTag.Validate Store.bus plainSlug
        ⟨none, some ⟨"feature", "bug", "ff00aa", true⟩⟩ ⟨twoTags, []⟩ none).ret = some r
      ∧ r.Err = none ∧ r.Messages "name" = ["This tag name is already in use."]) :=
  ⟨(C3_duplicate_name_of_another_tag_is_reported Store.bus plainSlug
      ⟨none, some ⟨"", "bug", "zzzzzz", true⟩⟩ ⟨"", "bug", "zzzzzz", true⟩
      ⟨twoTags, []⟩ none bugTag rfl (by decide) (by decide)).1
      rfl rfl (Or.inl rfl),
   (C3_duplicate_name_of_another_tag_is_reported Store.bus plainSlug
      ⟨none, some ⟨"feature", "bug", "ff00aa", true⟩⟩ ⟨"feature", "bug", "ff00aa", true⟩
      ⟨twoTags, []⟩ none bugTag rfl (by decide) (by decide)).2
      (by decide) rfl rfl (Or.inr ⟨featureTag, rfl, by decide⟩)⟩

/-- C4: in an edit (non-empty `Model.Slug` whose lookup succeeds with tag `T`)
where the lookup of `slug.Make(Name)` returns a tag `D` with the ID of `T`,
`Validate` returns a result without top-level error that holds no
"This tag name is already in use." failure, and no `name` failure at all when
Name is non-empty and within the length limit; `Tag` is then `T`. -/
theorem C4_edit_with_own_name_is_not_a_duplicate (b : Bus σ)
    (slugMake : String → String) (action : CreateEditTag)
    (model : models.CreateEditTag) (w : World σ) (user : Option models.User)
    (T D : models.Tag)
    (hm : action.Model = some model)
    (hs : model.Slug ≠ "")
    (h1 : (b.GetTagBySlug w.state model.Slug).1 = { Err := none, Result := some T })
    (h2 : (b.GetTagBySlug (b.GetTagBySlug w.state model.Slug).2 (slugMake model.Name)).1
        = { Err := none, Result := some D })
    (hid : D.ID = T.ID) :
    ∃ r, (CreateEditTag.Validate b slugMake action w user).ret = some r
      ∧ r.Err = none
      ∧ "This tag name is already in use." ∉ r.Messages "name"
      ∧ (model.Name ≠ "" → len model.Name ≤ 30 → r.Messages "name" = [])
      ∧ (CreateEditTag.Validate b slugMake action w user).action.Tag = some T := by
  by_cases hn : model.Name = ""
  · simp [CreateEditTag.Validate, hm, hs, CreateEditTag.checkFields,
      CreateEditTag.checkName, hn, bus.Dispatch, h1, checkColor_Err,
      checkColor_name, Messages_add_same, Err_add, Messages_Success]
    rfl
  · by_cases hl : len model.Name > 30
    · simp [CreateEditTag.Validate, hm, hs, CreateEditTag.checkFields,
        CreateEditTag.checkName, hn, hl, bus.Dispatch, h1, checkColor_Err,
        checkColor_name, Messages_add_same, Err_add, Messages_Success]
      rfl
    · simp [CreateEditTag.Validate, hm, hs, CreateEditTag.checkFields,
        CreateEditTag.checkName, hn, hl, bus.Dispatch, h1, h2, hid, checkColor_Err,
        checkColor_name, Messages_add_same, Err_add, Messages_Success]
      rfl

/-- Witness of C4: editing the tag `bug` and keeping its name, with an invalid
Color. -/
theorem C4_edit_with_own_name_is_not_a_duplicate_witness :
    ∃ r, (CreateEditTag.Validate Store.bus plainSlug
        ⟨none, some ⟨"bug", "bug", "zzzzzz", true⟩⟩ ⟨twoTags, []⟩ none).ret = some r
      ∧ r.Err = none
      ∧ "This tag name is already in use." ∉ r.Messages "name"
      ∧ (("bug" : String) ≠ "" → len "bug" ≤ 30 → r.Messages "name" = [])
      ∧ (CreateEditTag.Validate Store.bus plainSlug
        ⟨none, some ⟨"bug", "bug", "zzzzzz", true⟩⟩ ⟨twoTags, []⟩ none).action.Tag
          = some bugTag :=
  C4_edit_with_own_name_is_not_a_duplicate Store.bus plainSlug
    ⟨none, some ⟨"bug", "bug", "zzzzzz", true⟩⟩ ⟨"bug", "bug", "zzzzzz", true⟩
    ⟨twoTags, []⟩ none bugTag bugTag rfl (by decide) rfl rfl rfl

/-! ## Lemmas on strings -/

theorem length_le_utf8Len (l : List Char) : l.length ≤ String.utf8Len l := by
  induction l with
  | nil => simp
  | cons c cs ih =>
    have := c.utf8Size_pos
    simp only [String.utf8Len_cons, List.length_cons]
    omega

/-- A string has at least as many bytes as characters. -/
theorem length_le_len (s : String) : s.length ≤ len s := by
  cases s with
  | mk l => simpa [len, String.length] using length_le_utf8Len l

theorem utf8Size_of_le_f (c : Char) (h : c ≤ 'f') : c.utf8Size = 1 := by
  have h1 : c.val ≤ ('f' : Char).val := h
  have h2 : c.val.toNat ≤ 102 := h1
  have h3 : c.val ≤ 127 := by
    show c.val.toNat ≤ 127
    omega
  simp [Char.utf8Size, h3]

theorem le_f_of_le (c d : Char) (h : c ≤ d) (hd : d.val.toNat ≤ 102) : c ≤ 'f' := by
  have h1 : c.val.toNat ≤ d.val.toNat := h
  show c.val.toNat ≤ 102
  omega

theorem utf8Size_of_isHexDigit (c : Char) (h : isHexDigit c = true) : c.utf8Size = 1 := by
  simp only [isHexDigit, Bool.or_eq_true, Bool.and_eq_true, decide_eq_true_eq] at h
  rcases h with (⟨_, h⟩ | ⟨_, h⟩) | ⟨_, h⟩
  · exact utf8Size_of_le_f c (le_f_of_le c '9' h (by decide))
  · exact utf8Size_of_le_f c h
  · exact utf8Size_of_le_f c (le_f_of_le c 'F' h (by decide))

theorem utf8Len_of_one_byte (l : List Char) (h : ∀ c ∈ l, c.utf8Size = 1) :
    String.utf8Len l = l.length := by
  induction l with
  | nil => simp
  | cons c cs ih =>
    have hc := h c (List.mem_cons_self c cs)
    have := ih (fun d hd => h d (List.mem_cons_of_mem c hd))
    simp only [String.utf8Len_cons, List.length_cons]
    omega

/-- Six hexadecimal digits take six bytes. -/
theorem len_of_SixHexDigits (s : String) (h : SixHexDigits s = true) : len s = 6 := by
  cases s with
  | mk l =>
    simp only [SixHexDigits, Bool.and_eq_true, decide_eq_true_eq, List.all_eq_true,
      String.length] at h
    have := utf8Len_of_one_byte l (fun c hc => utf8Size_of_isHexDigit c (h.2 c hc))
    simp only [len, String.utf8ByteSize_mk]
    omega

theorem ne_empty_of_SixHexDigits (s : String) (h : SixHexDigits s = true) : s ≠ "" := by
  intro he
  subst he
  simp [SixHexDigits] at h

/-! ## Lemmas on the colour regular expression -/

open regexp

theorem times_nil (f : Nat × List Char → List (Nat × List Char)) (n : Nat) :
    times f n [] = [] := by
  induction n with
  | zero => rfl
  | succ n ih => simpa [times] using ih

theorem run_BeginText (st : Nat × List Char) :
    Regexp.run Regexp.BeginText st = if st.1 = 0 then [st] else [] := by
  simp [Regexp.run]

theorem run_EndText (st : Nat × List Char) :
    Regexp.run Regexp.EndText st = if st.2.isEmpty then [st] else [] := by
  simp [Regexp.run]

theorem run_CharClass_nil (ranges : List (Char × Char)) (p : Nat) :
    Regexp.run (Regexp.CharClass ranges) (p, []) = [] := by
  simp [Regexp.run]

theorem run_CharClass_cons (ranges : List (Char × Char)) (p : Nat) (c : Char)
    (rest : List Char) :
    Regexp.run (Regexp.CharClass ranges) (p, c :: rest)
      = if inClass ranges c then [(p + 1, rest)] else [] := by
  simp [Regexp.run]

theorem run_Repeat (re : Regexp) (n : Nat) (st : Nat × List Char) :
    Regexp.run (Regexp.Repeat re n) st = times (Regexp.run re) n [st] := by
  simp [Regexp.run]

theorem run_Concat (first second : Regexp) (st : Nat × List Char) :
    Regexp.run (Regexp.Concat first second) st
      = (Regexp.run first st).flatMap (Regexp.run second) := by
  simp [Regexp.run]

theorem run_Capture (re : Regexp) (st : Nat × List Char) :
    Regexp.run (Regexp.Capture re) st = Regexp.run re st := by
  simp [Regexp.run]

theorem times_charClass (ranges : List (Char × Char)) (n : Nat) :
    ∀ (p : Nat) (l : List Char),
      times (Regexp.run (Regexp.CharClass ranges)) n [(p, l)]
        = if n ≤ l.length ∧ ∀ c ∈ l.take n, inClass ranges c = true
          then [(p + n, l.drop n)] else [] := by
  induction n with
  | zero => intro p l; simp [times]
  | succ n ih =>
    intro p l
    cases l with
    | nil => simp [times, run_CharClass_nil, times_nil]
    | cons c rest =>
      by_cases hc : inClass ranges c = true
      · simp only [times, List.flatMap_cons, List.flatMap_nil, run_CharClass_cons, hc,
          if_true, List.append_nil, ih]
        simp [hc, Nat.add_assoc, Nat.add_comm 1 n]
      · simp [times, run_CharClass_cons, hc, times_nil]

theorem inClass_hex (c : Char) :
    inClass [('A', 'F'), ('a', 'f'), ('0', '9')] c = isHexDigit c := by
  simp only [inClass, isHexDigit, List.any_cons, List.any_nil, Bool.or_false]
  cases decide ('0' ≤ c) <;> cases decide (c ≤ '9') <;> cases decide ('a' ≤ c) <;>
    cases decide (c ≤ 'f') <;> cases decide ('A' ≤ c) <;> cases decide (c ≤ 'F') <;> rfl

theorem run_colorRegex_pos (i : Nat) (l : List Char) (h : i ≠ 0) :
    Regexp.run actions.colorRegex (i, l) = [] := by
  simp [actions.colorRegex, run_Concat, run_BeginText, h]

theorem run_colorRegex_zero (l : List Char) :
    (Regexp.run actions.colorRegex (0, l)).isEmpty = false
      ↔ l.length = 6 ∧ ∀ c ∈ l, isHexDigit c = true := by
  simp only [actions.colorRegex, run_Concat, run_BeginText, run_Capture, run_Repeat, if_true,
    List.flatMap_cons, List.flatMap_nil, List.append_nil, times_charClass, inClass_hex]
  by_cases h6 : 6 ≤ l.length
  · by_cases hall : ∀ c ∈ l.take 6, isHexDigit c = true
    · by_cases hd : l.drop 6 = []
      · have hlen : l.length = 6 := by
          have := congrArg List.length hd
          simp at this
          omega
        have htake : l.take 6 = l := by
          rw [← hlen]; exact List.take_length l
        rw [htake] at hall
        simp [h6, hall, hd, hlen, htake, run_EndText]
      · have hlen : l.length ≠ 6 := by
          intro h
          apply hd
          rw [← h]; exact List.drop_length l
        simp [h6, hall, hd, hlen, run_EndText]
    · have : ¬ ∀ c ∈ l, isHexDigit c = true := by
        intro h
        exact hall (fun c hc => h c (List.mem_of_mem_take hc))
      simp [h6, hall, this]
  · have hlen : l.length ≠ 6 := by omega
    simp [h6, hlen]

theorem MatchString_colorRegex (s : String) :
    actions.colorRegex.MatchString s = true ↔ SixHexDigits s = true := by
  have hz := run_colorRegex_zero s.data
  simp only [Regexp.MatchString, List.any_eq_true, List.mem_range, SixHexDigits,
    Bool.and_eq_true, decide_eq_true_eq, List.all_eq_true, String.length]
  constructor
  · rintro ⟨i, _, hi⟩
    by_cases h0 : i = 0
    · subst h0
      apply hz.mp
      simpa using hi
    · simp [run_colorRegex_pos i _ h0] at hi
  · intro h
    refine ⟨0, by omega, ?_⟩
    have := hz.mpr h
    simpa using this


/-! ## Structure of a run of CreateEditTag.Validate without fatal error -/

theorem Error_Err_ne_none (e : GoError) : (validate.Error e).Err ≠ none := by
  simp [validate.Error]

/-- The messages the Color checks add under `color`. -/
theorem checkColor_color (model : models.CreateEditTag) (r : validate.Result) :
    (CreateEditTag.checkColor model r).Messages "color"
      = r.Messages "color" ++
        (if model.Color = "" then ["Color is required."]
         else if len model.Color ≠ 6 then ["Color must be exactly 6 characters."]
         else if colorRegex.MatchString model.Color = false then ["Color is invalid."]
         else []) := by
  unfold CreateEditTag.checkColor
  split_ifs <;> simp_all [Messages_add_same]

/-- When the Name checks let control go on, they leave the top-level error and
the `color` key as they were; when they return, the result has an error. -/
theorem checkName_flow (b : Bus σ) (slugMake : String → String)
    (tag : Option models.Tag) (model : models.CreateEditTag) (w : World σ)
    (r0 : validate.Result) :
    (∀ r1, (CreateEditTag.checkName b slugMake tag model w r0).1 = Flow.next r1 →
      r1.Err = r0.Err ∧ r1.Messages "color" = r0.Messages "color")
    ∧ (∀ r1, (CreateEditTag.checkName b slugMake tag model w r0).1 = Flow.ret r1 →
      r1.Err ≠ none) := by
  unfold CreateEditTag.checkName
  refine ⟨?_, ?_⟩
  · intro r1 h
    split at h
    · simp only [Flow.next.injEq] at h
      subst h
      simp [Err_add, Messages_add_other]
    · split at h
      · simp only [Flow.next.injEq] at h
        subst h
        simp [Err_add, Messages_add_other]
      · split at h
        · split at h
          · simp at h
          · simp only [Flow.next.injEq] at h
            subst h
            simp
        · split at h
          · simp only [Flow.next.injEq] at h
            subst h
            simp [Err_add, Messages_add_other]
          · split at h
            · simp at h
            · split at h
              · simp only [Flow.next.injEq] at h
                subst h
                simp [Err_add, Messages_add_other]
              · simp only [Flow.next.injEq] at h
                subst h
                simp
  · intro r1 h
    split at h
    · simp at h
    · split at h
      · simp at h
      · split at h
        · split at h
          · simp only [Flow.ret.injEq] at h
            subst h
            exact Error_Err_ne_none _
          · simp at h
        · split at h
          · simp at h
          · split at h
            · simp at h
            · split at h <;> simp at h

/-- A run of lines 49-71 that returns a result without top-level error went
through the Color checks, entered with a result that has no error and the
`color` key of the result the block started with. -/
theorem checkFields_no_fatal (b : Bus σ) (slugMake : String → String)
    (action : CreateEditTag) (model : models.CreateEditTag) (w : World σ)
    (r0 r : validate.Result)
    (hr : (CreateEditTag.checkFields b slugMake action model w r0).ret = some r)
    (he : r.Err = none) :
    ∃ r1, r = CreateEditTag.checkColor model r1
      ∧ r1.Messages "color" = r0.Messages "color" := by
  have hflow := checkName_flow b slugMake action.Tag model w r0
  unfold CreateEditTag.checkFields at hr
  split at hr
  · next r1 w1 heq =>
    simp only [Option.some.injEq] at hr
    have h1 := hflow.1 r1 (by rw [heq])
    exact ⟨r1, hr.symm, h1.2⟩
  · next r1 w1 heq =>
    simp only [Option.some.injEq] at hr
    have h1 := hflow.2 r1 (by rw [heq])
    subst hr
    exact absurd he h1
  · simp at hr

/-- A run of `CreateEditTag.Validate` that returns a result without top-level
error went through the Color checks, entered with an empty `color` key. -/
theorem Validate_no_fatal (b : Bus σ) (slugMake : String → String)
    (action : CreateEditTag) (model : models.CreateEditTag) (w : World σ)
    (user : Option models.User) (r : validate.Result)
    (hm : action.Model = some model)
    (hr : (CreateEditTag.Validate b slugMake action w user).ret = some r)
    (he : r.Err = none) :
    ∃ r1, r = CreateEditTag.checkColor model r1 ∧ r1.Messages "color" = [] := by
  unfold CreateEditTag.Validate at hr
  simp only [hm] at hr
  split at hr
  · split at hr
    · simp only [Option.some.injEq] at hr
      subst hr
      exact absurd he (Error_Err_ne_none _)
    · exact checkFields_no_fatal b slugMake _ model _ validate.Success r hr he
  · exact checkFields_no_fatal b slugMake _ model _ validate.Success r hr he

/-- The `color` key of a result returned without top-level error. -/
theorem Validate_color (b : Bus σ) (slugMake : String → String)
    (action : CreateEditTag) (model : models.CreateEditTag) (w : World σ)
    (user : Option models.User) (r : validate.Result)
    (hm : action.Model = some model)
    (hr : (CreateEditTag.Validate b slugMake action w user).ret = some r)
    (he : r.Err = none) :
    r.Messages "color"
      = (if model.Color = "" then ["Color is required."]
         else if len model.Color ≠ 6 then ["Color must be exactly 6 characters."]
         else if colorRegex.MatchString model.Color = false then ["Color is invalid."]
         else []) := by
  obtain ⟨r1, h1, h2⟩ := Validate_no_fatal b slugMake action model w user r hm hr he
  rw [h1, checkColor_color, h2, List.nil_append]

/-! ## CreateEditTag.Validate: valid and invalid names -/

/-- C5, as stated, fails: a Name of sixteen characters, each of two bytes in
UTF-8, is non-empty, at most 30 characters long and unique (its slug lookup
returns not-found on the empty store), yet `Validate` reports the `name`
failure "Name must have less than 30 characters.", because `len` counts the
32 bytes of the name. -/
theorem C5_name_of_sixteen_characters_is_rejected :
    ("éééééééééééééééé" : String).length = 16
    ∧ len "éééééééééééééééé" = 32
    ∧ (Store.bus.GetTagBySlug noTags (plainSlug "éééééééééééééééé")).1.Err
        = some app.ErrNotFound
    ∧ (CreateEditTag.Validate Store.bus plainSlug
        ⟨none, some ⟨"", "éééééééééééééééé", "ff00aa", true⟩⟩ ⟨noTags, []⟩ none).ret
        = some { Err := none,
                 Failures := [("name", ["Name must have less than 30 characters."])] } := by
  decide

/-- C5, amended: for a Name that is non-empty and at most 30 bytes long (Go's
`len`) and unique (the lookup of `slug.Make(Name)` returns an error whose
cause is `app.ErrNotFound`), `Validate` returns a result without top-level
error and without `name` failure, whatever Color is: (1) in create mode;
(2) in edit mode when the slug lookup succeeds. -/
theorem C5_valid_unique_name_has_no_failure (b : Bus σ)
    (slugMake : String → String) (action : CreateEditTag)
    (model : models.CreateEditTag) (w : World σ) (user : Option models.User)
    (e : GoError)
    (hm : action.Model = some model)
    (hn : model.Name ≠ "") (hl : len model.Name ≤ 30)
    (he : errors.Cause e = app.ErrNotFound) :
    (model.Slug = "" →
      (b.GetTagBySlug w.state (slugMake model.Name)).1.Err = some e →
      ∃ r, (CreateEditTag.Validate b slugMake action w user).ret = some r
        ∧ r.Err = none ∧ r.Messages "name" = [])
    ∧ (model.Slug ≠ "" →
      (b.GetTagBySlug w.state model.Slug).1.Err = none →
      (b.GetTagBySlug (b.GetTagBySlug w.state model.Slug).2
          (slugMake model.Name)).1.Err = some e →
      ∃ r, (CreateEditTag.Validate b slugMake action w user).ret = some r
        ∧ r.Err = none ∧ r.Messages "name" = []) := by
  have hl2 : ¬ len model.Name > 30 := by omega
  refine ⟨?_, ?_⟩
  · intro hs h2
    simp [CreateEditTag.Validate, hm, hs, CreateEditTag.checkFields,
      CreateEditTag.checkName, hn, hl2, bus.Dispatch, h2, he, checkColor_Err,
      checkColor_name, Messages_Success]
    rfl
  · intro hs h1 h2
    simp [CreateEditTag.Validate, hm, hs, CreateEditTag.checkFields,
      CreateEditTag.checkName, hn, hl2, bus.Dispatch, h1, h2, he, checkColor_Err,
      checkColor_name, Messages_Success]
    rfl

/-- Witness of the amended C5: a name of 30 bytes on the empty store, with an
empty Color; and a rename of the tag `bug` to a fresh name, with an invalid
Color. -/
theorem C5_valid_unique_name_has_no_failure_witness :
    (∃ r, (CreateEditTag.Validate Store.bus plainSlug
        ⟨none, some ⟨"", "abcdefghijklmnopqrstuvwxyz0123", "", true⟩⟩
        ⟨noTags, []⟩ none).ret = some r
      ∧ r.Err = none ∧ r.Messages "name" = [])
    ∧ (∃ r, (CreateEditTag.Validate Store.bus plainSlug
        ⟨none, some ⟨"bug", "insect", "zzzzzz", true⟩⟩ ⟨twoTags, []⟩ none).ret = some r
      ∧ r.Err = none ∧ r.Messages "name" = []) :=
  ⟨(C5_valid_unique_name_has_no_failure Store.bus plainSlug
      ⟨none, some ⟨"", "abcdefghijklmnopqrstuvwxyz0123", "", true⟩⟩
      ⟨"", "abcdefghijklmnopqrstuvwxyz0123", "", true⟩ ⟨noTags, []⟩ none
      app.ErrNotFound rfl (by decide) (by decide) rfl).1 rfl rfl,
   (C5_valid_unique_name_has_no_failure Store.bus plainSlug
      ⟨none, some ⟨"bug", "insect", "zzzzzz", true⟩⟩
      ⟨"bug", "insect", "zzzzzz", true⟩ ⟨twoTags, []⟩ none
      app.ErrNotFound rfl (by decide) (by decide) rfl).2 (by decide) rfl rfl⟩

/-- C6: when Name is empty or longer than 30 (in characters, or in bytes as
`len` counts), `Validate` returns a result without top-level error whose
`name` key holds exactly one message, "Name is required." for an empty Name
and "Name must have less than 30 characters." otherwise, and the
duplicate-slug lookup is not dispatched: (1) in create mode nothing is
dispatched at all; (2) in edit mode with a successful slug lookup, that
lookup is the only query dispatched. -/
theorem C6_empty_or_long_name_fails_without_lookup (b : Bus σ)
    (slugMake : String → String) (action : CreateEditTag)
    (model : models.CreateEditTag) (w : World σ) (user : Option models.User)
    (hm : action.Model = some model)
    (hbad : model.Name = "" ∨ 30 < model.Name.length ∨ 30 < len model.Name) :
    (model.Slug = "" →
      ∃ r, (CreateEditTag.Validate b slugMake action w user).ret = some r
        ∧ r.Err = none
        ∧ r.Messages "name"
          = [if model.Name = "" then "Name is required."
             else "Name must have less than 30 characters."]
        ∧ (CreateEditTag.Validate b slugMake action w user).world.trace = w.trace
        ∧ (CreateEditTag.Validate b slugMake action w user).world.state = w.state)
    ∧ (model.Slug ≠ "" →
      (b.GetTagBySlug w.state model.Slug).1.Err = none →
      ∃ r, (CreateEditTag.Validate b slugMake action w user).ret = some r
        ∧ r.Err = none
        ∧ r.Messages "name"
          = [if model.Name = "" then "Name is required."
             else "Name must have less than 30 characters."]
        ∧ (CreateEditTag.Validate b slugMake action w user).world.trace
          = w.trace ++ [Sent.GetTagBySlug model.Slug]
        ∧ (CreateEditTag.Validate b slugMake action w user).world.state
          = (b.GetTagBySlug w.state model.Slug).2) := by
  have hcases : model.Name = "" ∨ (model.Name ≠ "" ∧ len model.Name > 30) := by
    by_cases hn : model.Name = ""
    · exact Or.inl hn
    · right
      refine ⟨hn, ?_⟩
      rcases hbad with h | h | h
      · exact absurd h hn
      · have := length_le_len model.Name
        omega
      · exact h
  refine ⟨?_, ?_⟩
  · intro hs
    rcases hcases with hn | ⟨hn, hl⟩
    · simp [CreateEditTag.Validate, hm, hs, CreateEditTag.checkFields,
        CreateEditTag.checkName, hn, checkColor_Err, checkColor_name,
        Messages_add_same, Err_add, Messages_Success]
      rfl
    · simp [CreateEditTag.Validate, hm, hs, CreateEditTag.checkFields,
        CreateEditTag.checkName, hn, hl, checkColor_Err, checkColor_name,
        Messages_add_same, Err_add, Messages_Success]
      rfl
  · intro hs h1
    rcases hcases with hn | ⟨hn, hl⟩
    · simp [CreateEditTag.Validate, hm, hs, CreateEditTag.checkFields,
        CreateEditTag.checkName, hn, bus.Dispatch, h1, checkColor_Err, checkColor_name,
        Messages_add_same, Err_add, Messages_Success]
      rfl
    · simp [CreateEditTag.Validate, hm, hs, CreateEditTag.checkFields,
        CreateEditTag.checkName, hn, hl, bus.Dispatch, h1, checkColor_Err,
        checkColor_name, Messages_add_same, Err_add, Messages_Success]
      rfl

/-- Witness of C6: an empty Name in create mode (nothing is dispatched), and a
Name of 31 characters while editing the tag `bug` (only the slug lookup is
dispatched). -/
theorem C6_empty_or_long_name_fails_without_lookup_witness :
    (∃ r, (CreateEditTag.Validate Store.bus plainSlug
        ⟨none, some ⟨"", "", "ff00aa", true⟩⟩ ⟨twoTags, []⟩ none).ret = some r
      ∧ r.Err = none
      ∧ r.Messages "name"
        = [if ("" : String) = "" then "Name is required."
           else "Name must have less than 30 characters."]
      ∧ (CreateEditTag.Validate Store.bus plainSlug
        ⟨none, some ⟨"", "", "ff00aa", true⟩⟩ ⟨twoTags, []⟩ none).world.trace = []
      ∧ (CreateEditTag.Validate Store.bus plainSlug
        ⟨none, some ⟨"", "", "ff00aa", true⟩⟩ ⟨twoTags, []⟩ none).world.state = twoTags)
    ∧ (∃ r, (CreateEditTag.Validate Store.bus plainSlug
        ⟨none, some ⟨"bug", "abcdefghijklmnopqrstuvwxyz01234", "ff00aa", true⟩⟩
        ⟨twoTags, []⟩ none).ret = some r
      ∧ r.Err = none
      ∧ r.Messages "name"
        = [if ("abcdefghijklmnopqrstuvwxyz01234" : String) = "" then "Name is required."
           else "Name must have less than 30 characters."]
      ∧ (CreateEditTag.Validate Store.bus plainSlug
        ⟨none, some ⟨"bug", "abcdefghijklmnopqrstuvwxyz01234", "ff00aa", true⟩⟩
        ⟨twoTags, []⟩ none).world.trace = [] ++ [Sent.GetTagBySlug "bug"]
      ∧ (CreateEditTag.Validate Store.bus plainSlug
        ⟨none, some ⟨"bug", "abcdefghijklmnopqrstuvwxyz01234", "ff00aa", true⟩⟩
        ⟨twoTags, []⟩ none).world.state = twoTags) :=
  ⟨(C6_empty_or_long_name_fails_without_lookup Store.bus plainSlug
      ⟨none, some ⟨"", "", "ff00aa", true⟩⟩ ⟨"", "", "ff00aa", true⟩
      ⟨twoTags, []⟩ none rfl (Or.inl rfl)).1 rfl,
   (C6_empty_or_long_name_fails_without_lookup Store.bus plainSlug
      ⟨none, some ⟨"bug", "abcdefghijklmnopqrstuvwxyz01234", "ff00aa", true⟩⟩
      ⟨"bug", "abcdefghijklmnopqrstuvwxyz01234", "ff00aa", true⟩
      ⟨twoTags, []⟩ none rfl (Or.inr (Or.inl (by decide)))).2 (by decide) rfl⟩

/-! ## CreateEditTag.Validate: the checks on Color -/

/-- C7: when `Validate` returns a result without top-level error, the result
has a `color` failure if and only if Color is not a string of exactly six
hexadecimal digits (0-9, a-f, A-F); and being such a string is the same as
being matched by `colorRegex`. In particular six hexadecimal digits in any
letter case get no `color` failure. -/
theorem C7_color_failure_iff_not_six_hex_digits (b : Bus σ)
    (slugMake : String → String) (action : CreateEditTag)
    (model : models.CreateEditTag) (w : World σ) (user : Option models.User)
    (r : validate.Result)
    (hm : action.Model = some model)
    (hr : (CreateEditTag.Validate b slugMake action w user).ret = some r)
    (he : r.Err = none) :
    (r.Messages "color" ≠ [] ↔ SixHexDigits model.Color = false)
    ∧ (SixHexDigits model.Color = true → r.Messages "color" = [])
    ∧ (SixHexDigits model.Color = true ↔ colorRegex.MatchString model.Color = true) := by
  have hcol := Validate_color b slugMake action model w user r hm hr he
  have hre := MatchString_colorRegex model.Color
  have key : r.Messages "color" ≠ [] ↔ SixHexDigits model.Color = false := by
    rw [hcol]
    by_cases h1 : model.Color = ""
    · have : SixHexDigits model.Color = false := by
        cases h : SixHexDigits model.Color
        · rfl
        · exact absurd h1 (ne_empty_of_SixHexDigits _ h)
      simp [h1, this]
      simpa [h1] using this
    · by_cases h2 : len model.Color ≠ 6
      · have : SixHexDigits model.Color = false := by
          cases h : SixHexDigits model.Color
          · rfl
          · exact absurd (len_of_SixHexDigits _ h) h2
        simp [h1, h2, this]
      · cases h3 : colorRegex.MatchString model.Color
        · have : SixHexDigits model.Color = false := by
            cases h : SixHexDigits model.Color
            · rfl
            · rw [hre.mpr h] at h3
              exact absurd h3 (by decide)
          simp [h1, h2, this]
        · have : SixHexDigits model.Color = true := hre.mp h3
          simp [h1, h2, this]
  refine ⟨key, ?_, hre.symm⟩
  intro h6
  by_contra hne
  have := key.mp hne
  rw [h6] at this
  exact absurd this (by decide)

/-- Witness of C7: creating the tag `insect` with the Color `Ff09aA` (six
hexadecimal digits in mixed case) succeeds, and with the Color `ff00a` (five
digits) it gets a `color` failure. -/
theorem C7_color_failure_iff_not_six_hex_digits_witness :
    ((validate.Result.Messages { Err := none, Failures := [] } "color" ≠ []
        ↔ SixHexDigits "Ff09aA" = false)
      ∧ (SixHexDigits "Ff09aA" = true
        → validate.Result.Messages { Err := none, Failures := [] } "color" = [])
      ∧ (SixHexDigits "Ff09aA" = true ↔ colorRegex.MatchString "Ff09aA" = true))
    ∧ ((validate.Result.Messages
          { Err := none, Failures := [("color", ["Color must be exactly 6 characters."])] }
          "color" ≠ []
        ↔ SixHexDigits "ff00a" = false)
      ∧ (SixHexDigits "ff00a" = true
        → validate.Result.Messages
          { Err := none, Failures := [("color", ["Color must be exactly 6 characters."])] }
          "color" = [])
      ∧ (SixHexDigits "ff00a" = true ↔ colorRegex.MatchString "ff00a" = true)) :=
  ⟨C7_color_failure_iff_not_six_hex_digits Store.bus plainSlug
      ⟨none, some ⟨"", "insect", "Ff09aA", true⟩⟩ ⟨"", "insect", "Ff09aA", true⟩
      ⟨twoTags, []⟩ none { Err := none, Failures := [] } rfl (by decide) rfl,
   C7_color_failure_iff_not_six_hex_digits Store.bus plainSlug
      ⟨none, some ⟨"", "insect", "ff00a", true⟩⟩ ⟨"", "insect", "ff00a", true⟩
      ⟨twoTags, []⟩ none
      { Err := none, Failures := [("color", ["Color must be exactly 6 characters."])] }
      rfl (by decide) rfl⟩

/-- C8, as stated, fails on Colors with characters of more than one byte. The
Color of six characters that are two bytes each is exactly 6 characters long and
does not match `colorRegex`, yet its failure is
"Color must be exactly 6 characters."; the Color of three such characters is
not 6 characters long, yet its failure is "Color is invalid.". -/
theorem C8_color_length_is_counted_in_bytes :
    (("éééééé" : String).length = 6
      ∧ colorRegex.MatchString "éééééé" = false
      ∧ (CreateEditTag.Validate Store.bus plainSlug
          ⟨none, some ⟨"", "insect", "éééééé", true⟩⟩ ⟨noTags, []⟩ none).ret
        = some { Err := none,
                 Failures := [("color", ["Color must be exactly 6 characters."])] })
    ∧ (("ééé" : String) ≠ "" ∧ ("ééé" : String).length = 3
      ∧ (CreateEditTag.Validate Store.bus plainSlug
          ⟨none, some ⟨"", "insect", "ééé", true⟩⟩ ⟨noTags, []⟩ none).ret
        = some { Err := none, Failures := [("color", ["Color is invalid."])] }) := by
  decide

/-- C8, amended: in a run of `Validate` that returns a result without top-level
error, the `color` key holds at most one message, which is
"Color is required." iff Color is empty,
"Color must be exactly 6 characters." iff Color is non-empty and not exactly 6
bytes long (Go's `len`), and "Color is invalid." iff Color is exactly 6 bytes
long and is not matched by `colorRegex`. -/
theorem C8_color_checks_report_in_sequence (b : Bus σ)
    (slugMake : String → String) (action : CreateEditTag)
    (model : models.CreateEditTag) (w : World σ) (user : Option models.User)
    (r : validate.Result)
    (hm : action.Model = some model)
    (hr : (CreateEditTag.Validate b slugMake action w user).ret = some r)
    (he : r.Err = none) :
    (r.Messages "color").length ≤ 1
    ∧ (r.Messages "color" = ["Color is required."] ↔ model.Color = "")
    ∧ (r.Messages "color" = ["Color must be exactly 6 characters."]
        ↔ model.Color ≠ "" ∧ len model.Color ≠ 6)
    ∧ (r.Messages "color" = ["Color is invalid."]
        ↔ len model.Color = 6 ∧ colorRegex.MatchString model.Color = false) := by
  rw [Validate_color b slugMake action model w user r hm hr he]
  have hlen0 : model.Color = "" → len model.Color ≠ 6 := by
    intro h
    rw [h]
    decide
  by_cases h1 : model.Color = ""
  · have := hlen0 h1
    simp [h1]
    intro h6
    rw [h1] at this
    exact absurd h6 this
  · by_cases h2 : len model.Color ≠ 6
    · simp [h1, h2]
    · cases h3 : colorRegex.MatchString model.Color
      · simp [h1, h2]
        omega
      · simp [h1, h2]

/-- Witness of the amended C8: Name `Feature` with Color `zzzzzz`, six bytes
that are not hexadecimal digits, gets exactly "Color is invalid.". -/
theorem C8_color_checks_report_in_sequence_witness :
    (validate.Result.Messages
        { Err := none, Failures := [("color", ["Color is invalid."])] } "color").length ≤ 1
    ∧ (validate.Result.Messages
        { Err := none, Failures := [("color", ["Color is invalid."])] } "color"
          = ["Color is required."] ↔ ("zzzzzz" : String) = "")
    ∧ (validate.Result.Messages
        { Err := none, Failures := [("color", ["Color is invalid."])] } "color"
          = ["Color must be exactly 6 characters."]
        ↔ ("zzzzzz" : String) ≠ "" ∧ len "zzzzzz" ≠ 6)
    ∧ (validate.Result.Messages
        { Err := none, Failures := [("color", ["Color is invalid."])] } "color"
          = ["Color is invalid."]
        ↔ len "zzzzzz" = 6 ∧ colorRegex.MatchString "zzzzzz" = false) :=
  C8_color_checks_report_in_sequence Store.bus plainSlug
    ⟨none, some ⟨"", "Feature", "zzzzzz", true⟩⟩ ⟨"", "Feature", "zzzzzz", true⟩
    ⟨noTags, []⟩ none { Err := none, Failures := [("color", ["Color is invalid."])] }
    rfl (by decide) rfl

/-! ## DeleteTag.Validate and AssignUnassignTag.Validate: failed lookups -/

/-- C9: in `DeleteTag.Validate`, every error `e` returned by the lookup of
`Model.Slug`, not-found included, is returned as the top-level error of a
result with no field failure, and the action (its `Tag` field included) is
left as it was; the lookup is the only query dispatched. -/
theorem C9_delete_lookup_error_is_returned (b : Bus σ) (action : DeleteTag)
    (model : models.DeleteTag) (w : World σ) (user : Option models.User)
    (e : GoError)
    (hm : action.Model = some model)
    (h1 : (b.GetTagBySlug w.state model.Slug).1.Err = some e) :
    (DeleteTag.Validate b action w user).ret = some { Err := some e, Failures := [] }
    ∧ (DeleteTag.Validate b action w user).action = action
    ∧ (action.Tag = none → (DeleteTag.Validate b action w user).action.Tag = none)
    ∧ (DeleteTag.Validate b action w user).world.trace
        = w.trace ++ [Sent.GetTagBySlug model.Slug] := by
  simp [DeleteTag.Validate, hm, bus.Dispatch, h1, validate.Error]

/-- Witness of C9: deleting a tag that does not exist returns the bare
`app.ErrNotFound` and leaves `Tag` unset. -/
theorem C9_delete_lookup_error_is_returned_witness :
    (DeleteTag.Validate Store.bus ⟨none, some ⟨"missing"⟩⟩ ⟨twoTags, []⟩ none).ret
        = some { Err := some app.ErrNotFound, Failures := [] }
    ∧ (DeleteTag.Validate Store.bus ⟨none, some ⟨"missing"⟩⟩ ⟨twoTags, []⟩ none).action
        = ⟨none, some ⟨"missing"⟩⟩
    ∧ ((⟨none, some ⟨"missing"⟩⟩ : DeleteTag).Tag = none →
      (DeleteTag.Validate Store.bus ⟨none, some ⟨"missing"⟩⟩ ⟨twoTags, []⟩ none).action.Tag
        = none)
    ∧ (DeleteTag.Validate Store.bus ⟨none, some ⟨"missing"⟩⟩ ⟨twoTags, []⟩ none).world.trace
        = [] ++ [Sent.GetTagBySlug "missing"] :=
  C9_delete_lookup_error_is_returned Store.bus ⟨none, some ⟨"missing"⟩⟩ ⟨"missing"⟩
    ⟨twoTags, []⟩ none app.ErrNotFound rfl rfl

/-- C10: in `AssignUnassignTag.Validate`, when the post lookup fails with `e`,
or the post lookup succeeds and the tag lookup then fails with `e`, the
combined dispatch returns `e`, `Validate` returns a result whose top-level
error is `e` with no field failure, and the action (both `Post` and `Tag`) is
left as it was. -/
theorem C10_assign_failure_leaves_post_and_tag (b : Bus σ)
    (action : AssignUnassignTag) (model : models.AssignUnassignTag) (w : World σ)
    (user : Option models.User) (e : GoError)
    (hm : action.Model = some model)
    (h : (b.GetPostByNumber w.state model.Number).1.Err = some e
      ∨ ((b.GetPostByNumber w.state model.Number).1.Err = none
        ∧ (b.GetTagBySlug (b.GetPostByNumber w.state model.Number).2 model.Slug).1.Err
            = some e)) :
    (bus.Dispatch2 b w { Number := model.Number, Result := none }
        { Slug := model.Slug, Result := none }).1 = some e
    ∧ (AssignUnassignTag.Validate b action w user).ret
        = some { Err := some e, Failures := [] }
    ∧ (AssignUnassignTag.Validate b action w user).action = action
    ∧ (action.Post = none → action.Tag = none →
      (AssignUnassignTag.Validate b action w user).action.Post = none
        ∧ (AssignUnassignTag.Validate b action w user).action.Tag = none) := by
  rcases h with h | ⟨h, h2⟩
  · simp [AssignUnassignTag.Validate, hm, bus.Dispatch2, bus.DispatchPost, bus.Dispatch,
      h, validate.Error]
    intro hp ht
    exact ⟨hp, ht⟩
  · simp [AssignUnassignTag.Validate, hm, bus.Dispatch2, bus.DispatchPost, bus.Dispatch,
      h, h2, validate.Error]
    intro hp ht
    exact ⟨hp, ht⟩

/-- Witness of C10 on the store with post 1 and the tags `bug` and `feature`:
the post exists and the tag does not; and the post does not exist. -/
theorem C10_assign_failure_leaves_post_and_tag_witness :
    ((bus.Dispatch2 Store.bus ⟨twoTags, []⟩ { Number := 1, Result := none }
        { Slug := "missing", Result := none }).1 = some app.ErrNotFound
      ∧ (AssignUnassignTag.Validate Store.bus ⟨none, none, some ⟨"missing", 1⟩⟩
          ⟨twoTags, []⟩ none).ret
        = some { Err := some app.ErrNotFound, Failures := [] }
      ∧ (AssignUnassignTag.Validate Store.bus ⟨none, none, some ⟨"missing", 1⟩⟩
          ⟨twoTags, []⟩ none).action
        = ⟨none, none, some ⟨"missing", 1⟩⟩
      ∧ ((⟨none, none, some ⟨"missing", 1⟩⟩ : AssignUnassignTag).Post = none →
        (⟨none, none, some ⟨"missing", 1⟩⟩ : AssignUnassignTag).Tag = none →
        (AssignUnassignTag.Validate Store.bus ⟨none, none, some ⟨"missing", 1⟩⟩
            ⟨twoTags, []⟩ none).action.Post = none
          ∧ (AssignUnassignTag.Validate Store.bus ⟨none, none, some ⟨"missing", 1⟩⟩
            ⟨twoTags, []⟩ none).action.Tag = none))
    ∧ ((bus.Dispatch2 Store.bus ⟨twoTags, []⟩ { Number := 99, Result := none }
        { Slug := "bug", Result := none }).1 = some app.ErrNotFound
      ∧ (AssignUnassignTag.Validate Store.bus ⟨none, none, some ⟨"bug", 99⟩⟩
          ⟨twoTags, []⟩ none).ret
        = some { Err := some app.ErrNotFound, Failures := [] }
      ∧ (AssignUnassignTag.Validate Store.bus ⟨none, none, some ⟨"bug", 99⟩⟩
          ⟨twoTags, []⟩ none).action
        = ⟨none, none, some ⟨"bug", 99⟩⟩
      ∧ ((⟨none, none, some ⟨"bug", 99⟩⟩ : AssignUnassignTag).Post = none →
        (⟨none, none, some ⟨"bug", 99⟩⟩ : AssignUnassignTag).Tag = none →
        (AssignUnassignTag.Validate Store.bus ⟨none, none, some ⟨"bug", 99⟩⟩
            ⟨twoTags, []⟩ none).action.Post = none
          ∧ (AssignUnassignTag.Validate Store.bus ⟨none, none, some ⟨"bug", 99⟩⟩
            ⟨twoTags, []⟩ none).action.Tag = none)) :=
  ⟨C10_assign_failure_leaves_post_and_tag Store.bus ⟨none, none, some ⟨"missing", 1⟩⟩
      ⟨"missing", 1⟩ ⟨twoTags, []⟩ none app.ErrNotFound rfl (Or.inr ⟨rfl, rfl⟩),
   C10_assign_failure_leaves_post_and_tag Store.bus ⟨none, none, some ⟨"bug", 99⟩⟩
      ⟨"bug", 99⟩ ⟨twoTags, []⟩ none app.ErrNotFound rfl (Or.inl rfl)⟩

/-! ## DeleteTag.Validate and AssignUnassignTag.Validate: success -/

/-- C11: with a bound model, `DeleteTag.Validate` returns a success (no error,
no field failure) if and only if the lookup of `Model.Slug` returns no error,
and then `Tag` is the `Result` of that lookup; `AssignUnassignTag.Validate`
returns a success if and only if the post lookup and then the tag lookup
return no error, and then `Post` and `Tag` are the `Result`s of the two
lookups. -/
theorem C11_success_iff_lookups_succeed (b : Bus σ) (w : World σ)
    (user : Option models.User) :
    (∀ (action : DeleteTag) (model : models.DeleteTag), action.Model = some model →
      ((∃ r, (DeleteTag.Validate b action w user).ret = some r
          ∧ r.Err = none ∧ r.Failures = [])
        ↔ (b.GetTagBySlug w.state model.Slug).1.Err = none)
      ∧ ((b.GetTagBySlug w.state model.Slug).1.Err = none →
        (DeleteTag.Validate b action w user).ret = some validate.Success
        ∧ (DeleteTag.Validate b action w user).action.Tag
            = (b.GetTagBySlug w.state model.Slug).1.Result))
    ∧ (∀ (action : AssignUnassignTag) (model : models.AssignUnassignTag),
      action.Model = some model →
      ((∃ r, (AssignUnassignTag.Validate b action w user).ret = some r
          ∧ r.Err = none ∧ r.Failures = [])
        ↔ ((b.GetPostByNumber w.state model.Number).1.Err = none
          ∧ (b.GetTagBySlug (b.GetPostByNumber w.state model.Number).2
              model.Slug).1.Err = none))
      ∧ ((b.GetPostByNumber w.state model.Number).1.Err = none →
        (b.GetTagBySlug (b.GetPostByNumber w.state model.Number).2 model.Slug).1.Err
            = none →
        (AssignUnassignTag.Validate b action w user).ret = some validate.Success
        ∧ (AssignUnassignTag.Validate b action w user).action.Post
            = (b.GetPostByNumber w.state model.Number).1.Result
        ∧ (AssignUnassignTag.Validate b action w user).action.Tag
            = (b.GetTagBySlug (b.GetPostByNumber w.state model.Number).2
                model.Slug).1.Result)) := by
  refine ⟨?_, ?_⟩
  · intro action model hm
    cases h1 : (b.GetTagBySlug w.state model.Slug).1.Err with
    | none =>
      simp [DeleteTag.Validate, hm, bus.Dispatch, h1, validate.Success]
    | some e =>
      simp [DeleteTag.Validate, hm, bus.Dispatch, h1, validate.Error]
  · intro action model hm
    cases h1 : (b.GetPostByNumber w.state model.Number).1.Err with
    | none =>
      cases h2 : (b.GetTagBySlug (b.GetPostByNumber w.state model.Number).2
          model.Slug).1.Err with
      | none =>
        simp [AssignUnassignTag.Validate, hm, bus.Dispatch2, bus.DispatchPost,
          bus.Dispatch, h1, h2, validate.Success]
      | some e =>
        simp [AssignUnassignTag.Validate, hm, bus.Dispatch2, bus.DispatchPost,
          bus.Dispatch, h1, h2, validate.Error]
    | some e =>
      simp [AssignUnassignTag.Validate, hm, bus.Dispatch2, bus.DispatchPost,
        bus.Dispatch, h1, validate.Error]

/-- Witness of C11 on the store with post 1 and the tags `bug` and `feature`:
deleting `bug` succeeds with `Tag` set to it, and assigning `feature` to post 1
succeeds with `Post` and `Tag` set. -/
theorem C11_success_iff_lookups_succeed_witness :
    ((DeleteTag.Validate Store.bus ⟨none, some ⟨"bug"⟩⟩ ⟨twoTags, []⟩ none).ret
        = some validate.Success
      ∧ (DeleteTag.Validate Store.bus ⟨none, some ⟨"bug"⟩⟩ ⟨twoTags, []⟩ none).action.Tag
        = (Store.bus.GetTagBySlug twoTags "bug").1.Result)
    ∧ ((AssignUnassignTag.Validate Store.bus ⟨none, none, some ⟨"feature", 1⟩⟩
          ⟨twoTags, []⟩ none).ret = some validate.Success
      ∧ (AssignUnassignTag.Validate Store.bus ⟨none, none, some ⟨"feature", 1⟩⟩
          ⟨twoTags, []⟩ none).action.Post
        = (Store.bus.GetPostByNumber twoTags 1).1.Result
      ∧ (AssignUnassignTag.Validate Store.bus ⟨none, none, some ⟨"feature", 1⟩⟩
          ⟨twoTags, []⟩ none).action.Tag
        = (Store.bus.GetTagBySlug (Store.bus.GetPostByNumber twoTags 1).2
            "feature").1.Result) :=
  ⟨((C11_success_iff_lookups_succeed Store.bus ⟨twoTags, []⟩ none).1
      ⟨none, some ⟨"bug"⟩⟩ ⟨"bug"⟩ rfl).2 rfl,
   ((C11_success_iff_lookups_succeed Store.bus ⟨twoTags, []⟩ none).2
      ⟨none, none, some ⟨"feature", 1⟩⟩ ⟨"feature", 1⟩ rfl).2 rfl rfl⟩

/-! ## Authorization -/

/-- C12: the authorization matrix of `IsAuthorized`. A nil caller is
unauthorized for the three actions; a collaborator is authorized for
`AssignUnassignTag` only; an administrator is authorized for the three
actions, an administrator being a collaborator too; a regular caller is
authorized for none. -/
theorem C12_authorization_matrix (create : CreateEditTag) (delete : DeleteTag)
    (assign : AssignUnassignTag) (id : Int) :
    (create.IsAuthorized none = false ∧ delete.IsAuthorized none = false
      ∧ assign.IsAuthorized none = false)
    ∧ (create.IsAuthorized (some ⟨id, models.Role.collaborator⟩) = false
      ∧ delete.IsAuthorized (some ⟨id, models.Role.collaborator⟩) = false
      ∧ assign.IsAuthorized (some ⟨id, models.Role.collaborator⟩) = true)
    ∧ (create.IsAuthorized (some ⟨id, models.Role.administrator⟩) = true
      ∧ delete.IsAuthorized (some ⟨id, models.Role.administrator⟩) = true
      ∧ assign.IsAuthorized (some ⟨id, models.Role.administrator⟩) = true)
    ∧ (create.IsAuthorized (some ⟨id, models.Role.visitor⟩) = false
      ∧ delete.IsAuthorized (some ⟨id, models.Role.visitor⟩) = false
      ∧ assign.IsAuthorized (some ⟨id, models.Role.visitor⟩) = false)
    ∧ ((⟨id, models.Role.administrator⟩ : models.User).IsAdministrator = true
      ∧ (⟨id, models.Role.administrator⟩ : models.User).IsCollaborator = true
      ∧ (⟨id, models.Role.collaborator⟩ : models.User).IsAdministrator = false) := by
  refine ⟨?_, ?_, ?_, ?_, ?_⟩
  · exact ⟨rfl, rfl, rfl⟩
  · exact ⟨rfl, rfl, rfl⟩
  · exact ⟨rfl, rfl, rfl⟩
  · exact ⟨rfl, rfl, rfl⟩
  · exact ⟨rfl, rfl, rfl⟩

/-! ## CreateEditTag.Validate: independence of the Name and Color checks -/

/-- The Name checks read the Name of the model only. -/
theorem checkName_congr (b : Bus σ) (slugMake : String → String)
    (tag : Option models.Tag) (m1 m2 : models.CreateEditTag) (w : World σ)
    (r0 : validate.Result) (hn : m1.Name = m2.Name) :
    CreateEditTag.checkName b slugMake tag m1 w r0
      = CreateEditTag.checkName b slugMake tag m2 w r0 := by
  unfold CreateEditTag.checkName
  rw [hn]

/-- Lines 49-71 give the same error and the same `name` messages on two
models with the same Name, and panic on both or on none. -/
theorem checkFields_name_congr (b : Bus σ) (slugMake : String → String)
    (a1 a2 : CreateEditTag) (m1 m2 : models.CreateEditTag) (w : World σ)
    (r0 : validate.Result) (ht : a1.Tag = a2.Tag) (hn : m1.Name = m2.Name) :
    (CreateEditTag.checkFields b slugMake a1 m1 w r0).ret.map
        (fun r => (r.Err, r.Messages "name"))
      = (CreateEditTag.checkFields b slugMake a2 m2 w r0).ret.map
        (fun r => (r.Err, r.Messages "name")) := by
  unfold CreateEditTag.checkFields
  rw [checkName_congr b slugMake a1.Tag m1 m2 w r0 hn, ht]
  rcases CreateEditTag.checkName b slugMake a2.Tag m2 w r0 with ⟨flow, w1⟩
  cases flow <;> simp [checkColor_Err, checkColor_name]

/-- `Validate` gives the same error and the same `name` messages on two
models with the same Slug and Name. -/
theorem Validate_name_congr (b : Bus σ) (slugMake : String → String)
    (tag : Option models.Tag) (m1 m2 : models.CreateEditTag) (w : World σ)
    (user : Option models.User) (hs : m1.Slug = m2.Slug) (hn : m1.Name = m2.Name) :
    (CreateEditTag.Validate b slugMake ⟨tag, some m1⟩ w user).ret.map
        (fun r => (r.Err, r.Messages "name"))
      = (CreateEditTag.Validate b slugMake ⟨tag, some m2⟩ w user).ret.map
        (fun r => (r.Err, r.Messages "name")) := by
  unfold CreateEditTag.Validate
  simp only [hs]
  split
  · split
    · rfl
    · exact checkFields_name_congr b slugMake _ _ m1 m2 _ _ rfl hn
  · exact checkFields_name_congr b slugMake _ _ m1 m2 _ _ rfl hn

/-- When the Name checks, entered with the empty result, let control go on,
the result holds nothing or one message under `name`. -/
theorem checkName_failures (b : Bus σ) (slugMake : String → String)
    (tag : Option models.Tag) (model : models.CreateEditTag) (w : World σ)
    (r1 : validate.Result)
    (h : (CreateEditTag.checkName b slugMake tag model w validate.Success).1
      = Flow.next r1) :
    r1.Failures = [] ∨ ∃ m, r1.Failures = [("name", [m])] := by
  unfold CreateEditTag.checkName at h
  split at h
  · simp only [Flow.next.injEq] at h
    subst h
    exact Or.inr ⟨_, rfl⟩
  · split at h
    · simp only [Flow.next.injEq] at h
      subst h
      exact Or.inr ⟨_, rfl⟩
    · split at h
      · split at h
        · simp at h
        · simp only [Flow.next.injEq] at h
          subst h
          exact Or.inl rfl
      · split at h
        · simp only [Flow.next.injEq] at h
          subst h
          exact Or.inr ⟨_, rfl⟩
        · split at h
          · simp at h
          · split at h
            · simp only [Flow.next.injEq] at h
              subst h
              exact Or.inr ⟨_, rfl⟩
            · simp only [Flow.next.injEq] at h
              subst h
              exact Or.inl rfl

/-- The Color checks append nothing or one `color` entry to a result that
holds nothing or one `name` entry. -/
theorem checkColor_failures (model : models.CreateEditTag) (r1 : validate.Result)
    (h1 : r1.Failures = [] ∨ ∃ m, r1.Failures = [("name", [m])]) :
    ∃ c, (CreateEditTag.checkColor model r1).Failures = r1.Failures ++ c
      ∧ (c = [] ∨ ∃ m, c = [("color", [m])]) := by
  have hadd : ∀ msg, (r1.AddFieldFailure "color" msg).Failures
      = r1.Failures ++ [("color", [msg])] := by
    intro msg
    rcases h1 with h | ⟨m, h⟩
    · simp [validate.Result.AddFieldFailure, h, validate.addTo]
    · simp [validate.Result.AddFieldFailure, h, validate.addTo]
  unfold CreateEditTag.checkColor
  split_ifs
  · exact ⟨_, hadd _, Or.inr ⟨_, rfl⟩⟩
  · exact ⟨_, hadd _, Or.inr ⟨_, rfl⟩⟩
  · exact ⟨_, hadd _, Or.inr ⟨_, rfl⟩⟩
  · exact ⟨[], by simp, Or.inl rfl⟩

/-- The failures of a result that lines 49-71 return without top-level error. -/
theorem checkFields_failures (b : Bus σ) (slugMake : String → String)
    (action : CreateEditTag) (model : models.CreateEditTag) (w : World σ)
    (r : validate.Result)
    (hr : (CreateEditTag.checkFields b slugMake action model w validate.Success).ret
      = some r)
    (he : r.Err = none) :
    ∃ n c, r.Failures = n ++ c ∧ (n = [] ∨ ∃ m, n = [("name", [m])])
      ∧ (c = [] ∨ ∃ m, c = [("color", [m])]) := by
  have hflow := checkName_flow b slugMake action.Tag model w validate.Success
  unfold CreateEditTag.checkFields at hr
  split at hr
  · next r1 w1 heq =>
    simp only [Option.some.injEq] at hr
    have hn := checkName_failures b slugMake action.Tag model w r1 (by rw [heq])
    obtain ⟨c, hc, hc2⟩ := checkColor_failures model r1 hn
    exact ⟨r1.Failures, c, by rw [← hr, hc], hn, hc2⟩
  · next r1 w1 heq =>
    simp only [Option.some.injEq] at hr
    have h1 := hflow.2 r1 (by rw [heq])
    subst hr
    exact absurd he h1
  · simp at hr

/-- The failures of a result that `Validate` returns without top-level error:
nothing or one message under `name`, then nothing or one under `color`. -/
theorem Validate_failures (b : Bus σ) (slugMake : String → String)
    (action : CreateEditTag) (model : models.CreateEditTag) (w : World σ)
    (user : Option models.User) (r : validate.Result)
    (hm : action.Model = some model)
    (hr : (CreateEditTag.Validate b slugMake action w user).ret = some r)
    (he : r.Err = none) :
    ∃ n c, r.Failures = n ++ c ∧ (n = [] ∨ ∃ m, n = [("name", [m])])
      ∧ (c = [] ∨ ∃ m, c = [("color", [m])]) := by
  unfold CreateEditTag.Validate at hr
  simp only [hm] at hr
  split at hr
  · split at hr
    · simp only [Option.some.injEq] at hr
      subst hr
      exact absurd he (Error_Err_ne_none _)
    · exact checkFields_failures b slugMake _ model _ r hr he
  · exact checkFields_failures b slugMake _ model _ r hr he

/-- C13: take two runs of `Validate` from the same state that return results
`r1` and `r2` without top-level error, on models `m1` and `m2`. If the models
differ in Color only (same Slug and Name), the `name` messages are the same;
if they have the same Color, the `color` messages are the same, whatever the
Names are. The failures of `r1` are nothing or one message under `name`,
followed by nothing or one message under `color`, and no other key. With an
empty Name and an empty Color both "Name is required." and
"Color is required." are reported, in this order of insertion. -/
theorem C13_name_and_color_checked_independently (b : Bus σ)
    (slugMake : String → String) (tag : Option models.Tag)
    (m1 m2 : models.CreateEditTag) (w : World σ) (user : Option models.User)
    (r1 r2 : validate.Result)
    (h1 : (CreateEditTag.Validate b slugMake ⟨tag, some m1⟩ w user).ret = some r1)
    (h2 : (CreateEditTag.Validate b slugMake ⟨tag, some m2⟩ w user).ret = some r2)
    (he1 : r1.Err = none) (he2 : r2.Err = none) :
    (m1.Slug = m2.Slug → m1.Name = m2.Name → r1.Messages "name" = r2.Messages "name")
    ∧ (m1.Color = m2.Color → r1.Messages "color" = r2.Messages "color")
    ∧ (∃ n c, r1.Failures = n ++ c ∧ (n = [] ∨ ∃ m, n = [("name", [m])])
        ∧ (c = [] ∨ ∃ m, c = [("color", [m])]))
    ∧ (m1.Name = "" → m1.Color = "" →
        r1.Failures = [("name", ["Name is required."]), ("color", ["Color is required."])]) := by
  refine ⟨?_, ?_, ?_, ?_⟩
  · intro hs hn
    have h := Validate_name_congr b slugMake tag m1 m2 w user hs hn
    rw [h1, h2] at h
    simp only [Option.map_some', Option.some.injEq, Prod.mk.injEq] at h
    exact h.2
  · intro hc
    rw [Validate_color b slugMake ⟨tag, some m1⟩ m1 w user r1 rfl h1 he1,
      Validate_color b slugMake ⟨tag, some m2⟩ m2 w user r2 rfl h2 he2, hc]
  · exact Validate_failures b slugMake ⟨tag, some m1⟩ m1 w user r1 rfl h1 he1
  · intro hn hc
    have hfields : ∀ (a : CreateEditTag) (w1 : World σ),
        (CreateEditTag.checkFields b slugMake a m1 w1 validate.Success).ret = some r1 →
        r1.Failures
          = [("name", ["Name is required."]), ("color", ["Color is required."])] := by
      intro a w1 h
      simp only [CreateEditTag.checkFields, CreateEditTag.checkName, hn, if_true,
        CreateEditTag.checkColor, hc, Option.some.injEq] at h
      rw [← h]
      rfl
    unfold CreateEditTag.Validate at h1
    simp only at h1
    split at h1
    · split at h1
      · simp only [Option.some.injEq] at h1
        subst h1
        exact absurd he1 (Error_Err_ne_none _)
      · exact hfields _ _ h1
    · exact hfields _ _ h1

/-- Witness of C13 on the empty store: an empty Name with an empty and with a
valid Color (same `name` message, both failures reported in the first run);
an empty and a valid Name with the same invalid Color (same `color`
message). -/
theorem C13_name_and_color_checked_independently_witness :
    (validate.Result.Messages
        { Err := none,
          Failures := [("name", ["Name is required."]), ("color", ["Color is required."])] }
        "name"
      = validate.Result.Messages
        { Err := none, Failures := [("name", ["Name is required."])] } "name")
    ∧ (validate.Result.Messages
        { Err := none,
          Failures := [("name", ["Name is required."]), ("color", ["Color is invalid."])] }
        "color"
      = validate.Result.Messages
        { Err := none, Failures := [("color", ["Color is invalid."])] } "color")
    ∧ ((validate.Result.Failures
        { Err := none,
          Failures := [("name", ["Name is required."]), ("color", ["Color is required."])] })
      = [("name", ["Name is required."]), ("color", ["Color is required."])]) :=
  ⟨(C13_name_and_color_checked_independently Store.bus plainSlug none
      ⟨"", "", "", true⟩ ⟨"", "", "ff00aa", false⟩ ⟨noTags, []⟩ none
      { Err := none,
        Failures := [("name", ["Name is required."]), ("color", ["Color is required."])] }
      { Err := none, Failures := [("name", ["Name is required."])] }
      (by decide) (by decide) rfl rfl).1 rfl rfl,
   (C13_name_and_color_checked_independently Store.bus plainSlug none
      ⟨"", "", "zzzzzz", true⟩ ⟨"", "insect", "zzzzzz", true⟩ ⟨noTags, []⟩ none
      { Err := none,
        Failures := [("name", ["Name is required."]), ("color", ["Color is invalid."])] }
      { Err := none, Failures := [("color", ["Color is invalid."])] }
      (by decide) (by decide) rfl rfl).2.1 rfl,
   (C13_name_and_color_checked_independently Store.bus plainSlug none
      ⟨"", "", "", true⟩ ⟨"", "", "ff00aa", false⟩ ⟨noTags, []⟩ none
      { Err := none,
        Failures := [("name", ["Name is required."]), ("color", ["Color is required."])] }
      { Err := none, Failures := [("name", ["Name is required."])] }
      (by decide) (by decide) rfl rfl).2.2.2 rfl rfl⟩

/-! ## Runs of Validate and the dispatcher state -/

/-- The Name checks use the world through the dispatcher state only: the flow
does not depend on the trace. -/
theorem checkName_flow_of_state (b : Bus σ) (slugMake : String → String)
    (tag : Option models.Tag) (model : models.CreateEditTag) (w w2 : World σ)
    (r0 : validate.Result) (hw : w.state = w2.state) :
    (CreateEditTag.checkName b slugMake tag model w r0).1
      = (CreateEditTag.checkName b slugMake tag model w2 r0).1 := by
  unfold CreateEditTag.checkName bus.Dispatch
  simp only [hw]
  split_ifs
  · rfl
  · rfl
  · cases hE : (b.GetTagBySlug w2.state (slugMake model.Name)).1.Err with
    | some e => simp only []; split_ifs <;> rfl
    | none =>
      cases tag with
      | none => rfl
      | some t =>
        cases hR : (b.GetTagBySlug w2.state (slugMake model.Name)).1.Result with
        | none => simp only []
        | some d => simp only []; split_ifs <;> rfl

/-- The dispatcher state after the Name checks: unchanged when nothing was
dispatched, else the state the duplicate lookup left. -/
theorem checkName_state (b : Bus σ) (slugMake : String → String)
    (tag : Option models.Tag) (model : models.CreateEditTag) (w : World σ)
    (r0 : validate.Result) :
    (CreateEditTag.checkName b slugMake tag model w r0).2.state = w.state
    ∨ (CreateEditTag.checkName b slugMake tag model w r0).2.state
        = (b.GetTagBySlug w.state (slugMake model.Name)).2 := by
  unfold CreateEditTag.checkName bus.Dispatch
  split_ifs
  · exact Or.inl rfl
  · exact Or.inl rfl
  · right
    cases hE : (b.GetTagBySlug w.state (slugMake model.Name)).1.Err with
    | some e => simp only [hE]; split_ifs <;> rfl
    | none =>
      cases tag with
      | none => simp only [hE]
      | some t =>
        cases hR : (b.GetTagBySlug w.state (slugMake model.Name)).1.Result with
        | none => simp only [hE, hR]
        | some d => simp only [hE, hR]; split_ifs <;> rfl

theorem checkFields_action (b : Bus σ) (slugMake : String → String)
    (action : CreateEditTag) (model : models.CreateEditTag) (w : World σ)
    (r0 : validate.Result) :
    (CreateEditTag.checkFields b slugMake action model w r0).action = action := by
  unfold CreateEditTag.checkFields
  split <;> rfl

theorem checkFields_world (b : Bus σ) (slugMake : String → String)
    (action : CreateEditTag) (model : models.CreateEditTag) (w : World σ)
    (r0 : validate.Result) :
    (CreateEditTag.checkFields b slugMake action model w r0).world
      = (CreateEditTag.checkName b slugMake action.Tag model w r0).2 := by
  unfold CreateEditTag.checkFields
  split <;> simp_all

theorem checkFields_ret (b : Bus σ) (slugMake : String → String)
    (action : CreateEditTag) (model : models.CreateEditTag) (w : World σ)
    (r0 : validate.Result) :
    (CreateEditTag.checkFields b slugMake action model w r0).ret
      = match (CreateEditTag.checkName b slugMake action.Tag model w r0).1 with
        | Flow.next r => some (CreateEditTag.checkColor model r)
        | Flow.ret r => some r
        | Flow.panic => none := by
  unfold CreateEditTag.checkFields
  split <;> simp_all

/-- Lines 49-71 return the same on two worlds with the same dispatcher state
and two actions with the same `Tag`. -/
theorem checkFields_ret_of_state (b : Bus σ) (slugMake : String → String)
    (a1 a2 : CreateEditTag) (model : models.CreateEditTag) (w w2 : World σ)
    (r0 : validate.Result) (ht : a1.Tag = a2.Tag) (hw : w.state = w2.state) :
    (CreateEditTag.checkFields b slugMake a1 model w r0).ret
      = (CreateEditTag.checkFields b slugMake a2 model w2 r0).ret := by
  rw [checkFields_ret, checkFields_ret, ht,
    checkName_flow_of_state b slugMake a2.Tag model w w2 r0 hw]

/-- Against a read-only dispatcher lines 49-71 leave the dispatcher state as
it was. -/
theorem checkFields_state_of_readOnly (b : Bus σ) (hro : ReadOnly b)
    (slugMake : String → String) (action : CreateEditTag)
    (model : models.CreateEditTag) (w : World σ) (r0 : validate.Result) :
    (CreateEditTag.checkFields b slugMake action model w r0).world.state = w.state := by
  rw [checkFields_world]
  rcases checkName_state b slugMake action.Tag model w r0 with h | h
  · exact h
  · rw [h]
    exact hro.1 _ _

/-- A second call of `CreateEditTag.Validate`, against a read-only
dispatcher, returns what the first call returned and leaves the action as the
first call left it. -/
theorem CreateEditTag_Validate_twice (b : Bus σ) (hro : ReadOnly b)
    (slugMake : String → String) (action : CreateEditTag) (w : World σ)
    (u1 u2 : Option models.User) :
    (CreateEditTag.Validate b slugMake
        (CreateEditTag.Validate b slugMake action w u1).action
        (CreateEditTag.Validate b slugMake action w u1).world u2).ret
      = (CreateEditTag.Validate b slugMake action w u1).ret
    ∧ (CreateEditTag.Validate b slugMake
        (CreateEditTag.Validate b slugMake action w u1).action
        (CreateEditTag.Validate b slugMake action w u1).world u2).action
      = (CreateEditTag.Validate b slugMake action w u1).action := by
  obtain ⟨tag, optModel⟩ := action
  cases optModel with
  | none => exact ⟨rfl, rfl⟩
  | some m =>
    by_cases hs : m.Slug = ""
    · have e1 : ∀ (t : Option models.Tag) (w1 : World σ) (u : Option models.User),
          CreateEditTag.Validate b slugMake ⟨t, some m⟩ w1 u
            = CreateEditTag.checkFields b slugMake ⟨t, some m⟩ m w1 validate.Success := by
        intro t w1 u
        simp [CreateEditTag.Validate, hs]
      rw [e1 tag w u1, checkFields_action, e1, checkFields_action]
      refine ⟨?_, rfl⟩
      exact checkFields_ret_of_state b slugMake _ _ m _ _ _ rfl
        (checkFields_state_of_readOnly b hro slugMake _ m w _)
    · cases hE : (b.GetTagBySlug w.state m.Slug).1.Err with
      | some e =>
        have e1 : ∀ (w1 : World σ) (u : Option models.User), w1.state = w.state →
            (CreateEditTag.Validate b slugMake ⟨tag, some m⟩ w1 u).ret
                = some (validate.Error e)
              ∧ (CreateEditTag.Validate b slugMake ⟨tag, some m⟩ w1 u).action
                = ⟨tag, some m⟩
              ∧ (CreateEditTag.Validate b slugMake ⟨tag, some m⟩ w1 u).world.state
                = w.state := by
          intro w1 u hw1
          simp [CreateEditTag.Validate, hs, bus.Dispatch, hw1, hE, hro.1]
        obtain ⟨h1, h2, h3⟩ := e1 w u1 rfl
        rw [h2]
        obtain ⟨h4, h5, _⟩ := e1 _ u2 h3
        exact ⟨by rw [h4, h1], h5⟩
      | none =>
        have e1 : ∀ (t : Option models.Tag) (w1 : World σ) (u : Option models.User),
            w1.state = w.state →
            CreateEditTag.Validate b slugMake ⟨t, some m⟩ w1 u
              = CreateEditTag.checkFields b slugMake
                  ⟨(b.GetTagBySlug w.state m.Slug).1.Result, some m⟩ m
                  ⟨w.state, w1.trace ++ [Sent.GetTagBySlug m.Slug]⟩ validate.Success := by
          intro t w1 u hw1
          simp [CreateEditTag.Validate, hs, bus.Dispatch, hw1, hE, hro.1]
        rw [e1 tag w u1 rfl, checkFields_action]
        have hst := checkFields_state_of_readOnly b hro slugMake
          ⟨(b.GetTagBySlug w.state m.Slug).1.Result, some m⟩ m
          ⟨w.state, w.trace ++ [Sent.GetTagBySlug m.Slug]⟩ validate.Success
        rw [e1 _ _ u2 hst, checkFields_action]
        refine ⟨?_, rfl⟩
        exact checkFields_ret_of_state b slugMake _ _ m _ _ _ rfl rfl

/-- The dispatcher of a store never changes the store. -/
theorem Store_bus_readOnly : ReadOnly Store.bus := by
  refine ⟨?_, ?_⟩
  · intro s slug
    simp only [Store.bus]
    split <;> rfl
  · intro s n
    simp only [Store.bus]
    split <;> rfl

/-! ## Idempotence of Validate -/

/-- C14: against a dispatcher whose answers do not change (no handler changes
the dispatcher state), for each of the three actions a second call of
`Validate` on the action as the first call left it returns the same result as
the first call (the same error or field failures, or a panic again) and
leaves the action, with its `Tag` and `Post` fields, as the first call left
it. -/
theorem C14_validate_is_idempotent (b : Bus σ) (hro : ReadOnly b)
    (slugMake : String → String) (w : World σ) (u1 u2 : Option models.User) :
    (∀ action : CreateEditTag,
      (CreateEditTag.Validate b slugMake
          (CreateEditTag.Validate b slugMake action w u1).action
          (CreateEditTag.Validate b slugMake action w u1).world u2).ret
        = (CreateEditTag.Validate b slugMake action w u1).ret
      ∧ (CreateEditTag.Validate b slugMake
          (CreateEditTag.Validate b slugMake action w u1).action
          (CreateEditTag.Validate b slugMake action w u1).world u2).action
        = (CreateEditTag.Validate b slugMake action w u1).action)
    ∧ (∀ action : DeleteTag,
      (DeleteTag.Validate b (DeleteTag.Validate b action w u1).action
          (DeleteTag.Validate b action w u1).world u2).ret
        = (DeleteTag.Validate b action w u1).ret
      ∧ (DeleteTag.Validate b (DeleteTag.Validate b action w u1).action
          (DeleteTag.Validate b action w u1).world u2).action
        = (DeleteTag.Validate b action w u1).action)
    ∧ (∀ action : AssignUnassignTag,
      (AssignUnassignTag.Validate b (AssignUnassignTag.Validate b action w u1).action
          (AssignUnassignTag.Validate b action w u1).world u2).ret
        = (AssignUnassignTag.Validate b action w u1).ret
      ∧ (AssignUnassignTag.Validate b (AssignUnassignTag.Validate b action w u1).action
          (AssignUnassignTag.Validate b action w u1).world u2).action
        = (AssignUnassignTag.Validate b action w u1).action) := by
  refine ⟨?_, ?_, ?_⟩
  · intro action
    exact CreateEditTag_Validate_twice b hro slugMake action w u1 u2
  · intro action
    obtain ⟨tag, optModel⟩ := action
    cases optModel with
    | none => exact ⟨rfl, rfl⟩
    | some m =>
      cases hE : (b.GetTagBySlug w.state m.Slug).1.Err with
      | some e => simp [DeleteTag.Validate, bus.Dispatch, hE, hro.1]
      | none => simp [DeleteTag.Validate, bus.Dispatch, hE, hro.1]
  · intro action
    obtain ⟨tag, post, optModel⟩ := action
    cases optModel with
    | none => exact ⟨rfl, rfl⟩
    | some m =>
      cases hP : (b.GetPostByNumber w.state m.Number).1.Err with
      | some e =>
        simp [AssignUnassignTag.Validate, bus.Dispatch2, bus.DispatchPost, bus.Dispatch,
          hP, hro.1, hro.2]
      | none =>
        cases hT : (b.GetTagBySlug w.state m.Slug).1.Err with
        | some e =>
          simp [AssignUnassignTag.Validate, bus.Dispatch2, bus.DispatchPost, bus.Dispatch,
            hP, hT, hro.1, hro.2]
        | none =>
          simp [AssignUnassignTag.Validate, bus.Dispatch2, bus.DispatchPost, bus.Dispatch,
            hP, hT, hro.1, hro.2]

/-- Witness of C14 on the store with post 1 and the tags `bug` and `feature`:
renaming `feature` to `bug` (a name failure, `Tag` set by the first call),
deleting `bug`, and assigning a missing tag to post 1. -/
theorem C14_validate_is_idempotent_witness :
    ((CreateEditTag.Validate Store.bus plainSlug
          (CreateEditTag.Validate Store.bus plainSlug
            ⟨none, some ⟨"feature", "bug", "zzz", true⟩⟩ ⟨twoTags, []⟩ none).action
          (CreateEditTag.Validate Store.bus plainSlug
            ⟨none, some ⟨"feature", "bug", "zzz", true⟩⟩ ⟨twoTags, []⟩ none).world none).ret
        = (CreateEditTag.Validate Store.bus plainSlug
            ⟨none, some ⟨"feature", "bug", "zzz", true⟩⟩ ⟨twoTags, []⟩ none).ret
      ∧ (CreateEditTag.Validate Store.bus plainSlug
          (CreateEditTag.Validate Store.bus plainSlug
            ⟨none, some ⟨"feature", "bug", "zzz", true⟩⟩ ⟨twoTags, []⟩ none).action
          (CreateEditTag.Validate Store.bus plainSlug
            ⟨none, some ⟨"feature", "bug", "zzz", true⟩⟩ ⟨twoTags, []⟩ none).world
          none).action
        = (CreateEditTag.Validate Store.bus plainSlug
            ⟨none, some ⟨"feature", "bug", "zzz", true⟩⟩ ⟨twoTags, []⟩ none).action)
    ∧ ((DeleteTag.Validate Store.bus
          (DeleteTag.Validate Store.bus ⟨none, some ⟨"bug"⟩⟩ ⟨twoTags, []⟩ none).action
          (DeleteTag.Validate Store.bus ⟨none, some ⟨"bug"⟩⟩ ⟨twoTags, []⟩ none).world
          none).ret
        = (DeleteTag.Validate Store.bus ⟨none, some ⟨"bug"⟩⟩ ⟨twoTags, []⟩ none).ret
      ∧ (DeleteTag.Validate Store.bus
          (DeleteTag.Validate Store.bus ⟨none, some ⟨"bug"⟩⟩ ⟨twoTags, []⟩ none).action
          (DeleteTag.Validate Store.bus ⟨none, some ⟨"bug"⟩⟩ ⟨twoTags, []⟩ none).world
          none).action
        = (DeleteTag.Validate Store.bus ⟨none, some ⟨"bug"⟩⟩ ⟨twoTags, []⟩ none).action)
    ∧ ((AssignUnassignTag.Validate Store.bus
          (AssignUnassignTag.Validate Store.bus ⟨none, none, some ⟨"missing", 1⟩⟩
            ⟨twoTags, []⟩ none).action
          (AssignUnassignTag.Validate Store.bus ⟨none, none, some ⟨"missing", 1⟩⟩
            ⟨twoTags, []⟩ none).world none).ret
        = (AssignUnassignTag.Validate Store.bus ⟨none, none, some ⟨"missing", 1⟩⟩
            ⟨twoTags, []⟩ none).ret
      ∧ (AssignUnassignTag.Validate Store.bus
          (AssignUnassignTag.Validate Store.bus ⟨none, none, some ⟨"missing", 1⟩⟩
            ⟨twoTags, []⟩ none).action
          (AssignUnassignTag.Validate Store.bus ⟨none, none, some ⟨"missing", 1⟩⟩
            ⟨twoTags, []⟩ none).world none).action
        = (AssignUnassignTag.Validate Store.bus ⟨none, none, some ⟨"missing", 1⟩⟩
            ⟨twoTags, []⟩ none).action) :=
  ⟨(C14_validate_is_idempotent Store.bus Store_bus_readOnly plainSlug ⟨twoTags, []⟩
      none none).1 ⟨none, some ⟨"feature", "bug", "zzz", true⟩⟩,
   (C14_validate_is_idempotent Store.bus Store_bus_readOnly plainSlug ⟨twoTags, []⟩
      none none).2.1 ⟨none, some ⟨"bug"⟩⟩,
   (C14_validate_is_idempotent Store.bus Store_bus_readOnly plainSlug ⟨twoTags, []⟩
      none none).2.2 ⟨none, none, some ⟨"missing", 1⟩⟩⟩

/-! ## Frame of CreateEditTag.Validate -/

/-- The queries the Name checks dispatch: the duplicate-slug lookup when Name
is non-empty and within the length limit, nothing otherwise. -/
theorem checkName_trace (b : Bus σ) (slugMake : String → String)
    (tag : Option models.Tag) (model : models.CreateEditTag) (w : World σ)
    (r0 : validate.Result) :
    (CreateEditTag.checkName b slugMake tag model w r0).2.trace
      = w.trace ++ (if model.Name = "" ∨ len model.Name > 30 then []
          else [Sent.GetTagBySlug (slugMake model.Name)]) := by
  by_cases h1 : model.Name = ""
  · simp [CreateEditTag.checkName, h1]
  · by_cases h2 : len model.Name > 30
    · simp [CreateEditTag.checkName, h1, h2]
    · have h3 : ¬ (model.Name = "" ∨ len model.Name > 30) := by
        rintro (h | h)
        · exact h1 h
        · exact h2 h
      rw [if_neg h3]
      unfold CreateEditTag.checkName bus.Dispatch
      rw [if_neg h1, if_neg h2]
      cases hE : (b.GetTagBySlug w.state (slugMake model.Name)).1.Err with
      | some e => simp only [hE]; split_ifs <;> rfl
      | none =>
        cases tag with
        | none => simp only [hE]
        | some t =>
          cases hR : (b.GetTagBySlug w.state (slugMake model.Name)).1.Result with
          | none => simp only [hE, hR]
          | some d => simp only [hE, hR]; split_ifs <;> rfl

/-- C15: the frame of `CreateEditTag.Validate`. (1) `Model` is never modified.
(2) With an empty `Model.Slug` the action is left as it was and no edit lookup
is dispatched: the only query that can be dispatched is the duplicate-slug
lookup of a non-empty Name within the length limit; so on a fresh action
`Tag` stays nil. (3) With a non-empty `Model.Slug` whose lookup returns no
error, `Tag` is the `Result` of that lookup after the call, whatever the
later checks report. -/
theorem C15_frame_of_tag_and_model (b : Bus σ) (slugMake : String → String)
    (action : CreateEditTag) (w : World σ) (user : Option models.User) :
    (CreateEditTag.Validate b slugMake action w user).action.Model = action.Model
    ∧ (∀ model, action.Model = some model → model.Slug = "" →
      (CreateEditTag.Validate b slugMake action w user).action = action
      ∧ (CreateEditTag.Validate b slugMake action w user).world.trace
        = w.trace ++ (if model.Name = "" ∨ len model.Name > 30 then []
            else [Sent.GetTagBySlug (slugMake model.Name)])
      ∧ (action.Tag = none →
        (CreateEditTag.Validate b slugMake action w user).action.Tag = none))
    ∧ (∀ model, action.Model = some model → model.Slug ≠ "" →
      (b.GetTagBySlug w.state model.Slug).1.Err = none →
      (CreateEditTag.Validate b slugMake action w user).action.Tag
        = (b.GetTagBySlug w.state model.Slug).1.Result) := by
  refine ⟨?_, ?_, ?_⟩
  · obtain ⟨tag, optModel⟩ := action
    cases optModel with
    | none => rfl
    | some m =>
      unfold CreateEditTag.Validate
      simp only
      split
      · split
        · rfl
        · rw [checkFields_action]
      · rw [checkFields_action]
  · intro model hm hs
    have e1 : CreateEditTag.Validate b slugMake action w user
        = CreateEditTag.checkFields b slugMake action model w validate.Success := by
      simp [CreateEditTag.Validate, hm, hs]
    rw [e1, checkFields_action, checkFields_world, checkName_trace]
    exact ⟨rfl, rfl, fun h => h⟩
  · intro model hm hs hE
    have e1 : CreateEditTag.Validate b slugMake action w user
        = CreateEditTag.checkFields b slugMake
            { action with Tag := (b.GetTagBySlug w.state model.Slug).1.Result } model
            ⟨(b.GetTagBySlug w.state model.Slug).2,
              w.trace ++ [Sent.GetTagBySlug model.Slug]⟩ validate.Success := by
      simp [CreateEditTag.Validate, hm, hs, bus.Dispatch, hE]
    rw [e1, checkFields_action]

/-- Witness of C15: creating the tag `Bug` with Color `ff00aa` on the empty
store succeeds, dispatches the duplicate lookup only and leaves `Tag` nil;
renaming the tag `feature` to `bug` fails on the name and still sets `Tag` to
the tag `feature`. -/
theorem C15_frame_of_tag_and_model_witness :
    ((CreateEditTag.Validate Store.bus plainSlug
        ⟨none, some ⟨"", "Bug", "ff00aa", true⟩⟩ ⟨noTags, []⟩ none).ret
        = some validate.Success
      ∧ (CreateEditTag.Validate Store.bus plainSlug
        ⟨none, some ⟨"", "Bug", "ff00aa", true⟩⟩ ⟨noTags, []⟩ none).action
        = ⟨none, some ⟨"", "Bug", "ff00aa", true⟩⟩
      ∧ (CreateEditTag.Validate Store.bus plainSlug
        ⟨none, some ⟨"", "Bug", "ff00aa", true⟩⟩ ⟨noTags, []⟩ none).world.trace
        = [] ++ (if ("Bug" : String) = "" ∨ len "Bug" > 30 then []
            else [Sent.GetTagBySlug (plainSlug "Bug")])
      ∧ ((⟨none, some ⟨"", "Bug", "ff00aa", true⟩⟩ : CreateEditTag).Tag = none →
        (CreateEditTag.Validate Store.bus plainSlug
          ⟨none, some ⟨"", "Bug", "ff00aa", true⟩⟩ ⟨noTags, []⟩ none).action.Tag = none))
    ∧ ((CreateEditTag.Validate Store.bus plainSlug
        ⟨none, some ⟨"feature", "bug", "ff00aa", true⟩⟩ ⟨twoTags, []⟩ none).action.Tag
        = (Store.bus.GetTagBySlug twoTags "feature").1.Result
      ∧ (Store.bus.GetTagBySlug twoTags "feature").1.Result = some featureTag) :=
  ⟨⟨by decide,
    ((C15_frame_of_tag_and_model Store.bus plainSlug
      ⟨none, some ⟨"", "Bug", "ff00aa", true⟩⟩ ⟨noTags, []⟩ none).2.1
      ⟨"", "Bug", "ff00aa", true⟩ rfl rfl)⟩,
   ⟨(C15_frame_of_tag_and_model Store.bus plainSlug
      ⟨none, some ⟨"feature", "bug", "ff00aa", true⟩⟩ ⟨twoTags, []⟩ none).2.2
      ⟨"feature", "bug", "ff00aa", true⟩ rfl (by decide) rfl, rfl⟩⟩

/-! ## CreateEditTag.Validate does not panic -/

/-- The Name checks panic only after a duplicate lookup that returned no
error and a nil `Result`, while a tag is being edited. -/
theorem checkName_panic (b : Bus σ) (slugMake : String → String)
    (tag : Option models.Tag) (model : models.CreateEditTag) (w : World σ)
    (r0 : validate.Result)
    (h : (CreateEditTag.checkName b slugMake tag model w r0).1 = Flow.panic) :
    (b.GetTagBySlug w.state (slugMake model.Name)).1.Err = none
    ∧ (b.GetTagBySlug w.state (slugMake model.Name)).1.Result = none
    ∧ tag ≠ none := by
  unfold CreateEditTag.checkName bus.Dispatch at h
  split_ifs at h
  cases hE : (b.GetTagBySlug w.state (slugMake model.Name)).1.Err with
  | some e =>
    simp only [hE] at h
    split_ifs at h
  | none =>
    cases tag with
    | none => simp [hE] at h
    | some t =>
      cases hR : (b.GetTagBySlug w.state (slugMake model.Name)).1.Result with
      | none => simp
      | some d =>
        simp only [hE, hR] at h
        split_ifs at h

/-- When the Name checks return, they return an error result. -/
theorem checkName_ret (b : Bus σ) (slugMake : String → String)
    (tag : Option models.Tag) (model : models.CreateEditTag) (w : World σ)
    (r0 r : validate.Result)
    (h : (CreateEditTag.checkName b slugMake tag model w r0).1 = Flow.ret r) :
    ∃ e, r = validate.Error e := by
  unfold CreateEditTag.checkName bus.Dispatch at h
  split_ifs at h
  cases hE : (b.GetTagBySlug w.state (slugMake model.Name)).1.Err with
  | some e =>
    simp only [hE] at h
    split_ifs at h
    simp only [Flow.ret.injEq] at h
    exact ⟨e, h.symm⟩
  | none =>
    cases tag with
    | none => simp [hE] at h
    | some t =>
      cases hR : (b.GetTagBySlug w.state (slugMake model.Name)).1.Result with
      | none => simp [hE, hR] at h
      | some d =>
        simp only [hE, hR] at h
        split_ifs at h

/-- The outcome of lines 49-71 against a dispatcher that sets `Result`: either
the error result of a duplicate lookup that failed with another error than
not-found, or a result without error in which every violated rule on Name and
Color has its message. -/
theorem checkFields_result (b : Bus σ) (hset : SetsResult b)
    (slugMake : String → String) (action : CreateEditTag)
    (model : models.CreateEditTag) (w : World σ) :
    ∃ r, (CreateEditTag.checkFields b slugMake action model w validate.Success).ret
        = some r
      ∧ ((∃ e, r = validate.Error e
          ∧ model.Name ≠ "" ∧ len model.Name ≤ 30
          ∧ (b.GetTagBySlug w.state (slugMake model.Name)).1.Err = some e
          ∧ errors.Cause e ≠ app.ErrNotFound)
        ∨ (r.Err = none
          ∧ (model.Name = "" → r.Messages "name" = ["Name is required."])
          ∧ (model.Name ≠ "" → len model.Name > 30 →
              r.Messages "name" = ["Name must have less than 30 characters."])
          ∧ (model.Name ≠ "" → len model.Name ≤ 30 →
              ∀ d, (b.GetTagBySlug w.state (slugMake model.Name)).1
                  = { Err := none, Result := some d } →
              (action.Tag = none ∨ ∃ t, action.Tag = some t ∧ t.ID ≠ d.ID) →
              r.Messages "name" = ["This tag name is already in use."])
          ∧ r.Messages "color"
            = (if model.Color = "" then ["Color is required."]
               else if len model.Color ≠ 6 then ["Color must be exactly 6 characters."]
               else if colorRegex.MatchString model.Color = false
                 then ["Color is invalid."]
               else []))) := by
  have hS : validate.Success.Err = none := rfl
  have hC : validate.Success.Messages "color" = [] := rfl
  by_cases hn : model.Name = ""
  · refine ⟨CreateEditTag.checkColor model
        (validate.Success.AddFieldFailure "name" "Name is required."),
      by simp [CreateEditTag.checkFields, CreateEditTag.checkName, hn], Or.inr ?_⟩
    simp [checkColor_Err, checkColor_name, checkColor_color, Messages_add_same,
      Messages_add_other, Err_add, Messages_Success, hn, hS, hC]
  · by_cases hl : len model.Name > 30
    · refine ⟨CreateEditTag.checkColor model
          (validate.Success.AddFieldFailure "name"
            "Name must have less than 30 characters."),
        by simp [CreateEditTag.checkFields, CreateEditTag.checkName, hn, hl], Or.inr ?_⟩
      simp [checkColor_Err, checkColor_name, checkColor_color, Messages_add_same,
        Messages_add_other, Err_add, Messages_Success, hn, hl, hS, hC]
    · have hl2 : len model.Name ≤ 30 := by omega
      cases hE : (b.GetTagBySlug w.state (slugMake model.Name)).1.Err with
      | some e =>
        by_cases hc : errors.Cause e = app.ErrNotFound
        · refine ⟨CreateEditTag.checkColor model validate.Success, by
            simp [CreateEditTag.checkFields, CreateEditTag.checkName, hn, hl,
              bus.Dispatch, hE, hc], Or.inr ?_⟩
          have hne : ∀ d : models.Tag,
              (b.GetTagBySlug w.state (slugMake model.Name)).1
                ≠ { Err := none, Result := some d } := by
            intro d h
            rw [h] at hE
            simp at hE
          simp [checkColor_Err, checkColor_name, checkColor_color, Messages_Success,
            hn, hl, hS, hC, hne]
        · refine ⟨validate.Error e, by
            simp [CreateEditTag.checkFields, CreateEditTag.checkName, hn, hl,
              bus.Dispatch, hE, hc], Or.inl ⟨e, rfl, hn, hl2, rfl, hc⟩⟩
      | none =>
        cases hR : (b.GetTagBySlug w.state (slugMake model.Name)).1.Result with
        | none => exact absurd hR (hset _ _ hE)
        | some d0 =>
          have hrep : ∀ d : models.Tag,
              (b.GetTagBySlug w.state (slugMake model.Name)).1
                = { Err := none, Result := some d } → d = d0 := by
            intro d h
            rw [h] at hR
            simpa using hR
          cases hT : action.Tag with
          | none =>
            refine ⟨CreateEditTag.checkColor model
                (validate.Success.AddFieldFailure "name"
                  "This tag name is already in use."), by
              simp [CreateEditTag.checkFields, CreateEditTag.checkName, hn, hl,
                bus.Dispatch, hE, hR, hT], Or.inr ?_⟩
            simp [checkColor_Err, checkColor_name, checkColor_color, Messages_add_same,
              Messages_add_other, Err_add, Messages_Success, hn, hl, hS, hC]
          | some t =>
            by_cases hid : t.ID = d0.ID
            · refine ⟨CreateEditTag.checkColor model validate.Success, by
                simp [CreateEditTag.checkFields, CreateEditTag.checkName, hn, hl,
                  bus.Dispatch, hE, hR, hT, hid], Or.inr ?_⟩
              simp only [checkColor_Err, checkColor_name, checkColor_color,
                Messages_Success, hS, hC, List.nil_append, true_and]
              refine ⟨fun h => absurd h hn, fun _ h => absurd h hl, ?_, trivial⟩
              intro _ _ d hd ht
              rcases ht with ht | ⟨t2, ht, hne⟩
              · simp at ht
              · simp only [Option.some.injEq] at ht
                subst ht
                rw [hrep d hd] at hne
                exact absurd hid hne
            · refine ⟨CreateEditTag.checkColor model
                  (validate.Success.AddFieldFailure "name"
                    "This tag name is already in use."), by
                simp [CreateEditTag.checkFields, CreateEditTag.checkName, hn, hl,
                  bus.Dispatch, hE, hR, hT, hid], Or.inr ?_⟩
              simp [checkColor_Err, checkColor_name, checkColor_color, Messages_add_same,
                Messages_add_other, Err_add, Messages_Success, hn, hl, hS, hC]

/-- Lines 49-71 panic exactly when the duplicate lookup is dispatched, returns
no error and a nil `Result`, and `Tag` is set. -/
theorem checkFields_panic_iff (b : Bus σ) (slugMake : String → String)
    (action : CreateEditTag) (model : models.CreateEditTag) (w : World σ)
    (r0 : validate.Result) :
    (CreateEditTag.checkFields b slugMake action model w r0).ret = none
      ↔ (model.Name ≠ "" ∧ len model.Name ≤ 30
        ∧ (b.GetTagBySlug w.state (slugMake model.Name)).1.Err = none
        ∧ (b.GetTagBySlug w.state (slugMake model.Name)).1.Result = none
        ∧ action.Tag ≠ none) := by
  constructor
  · intro h
    rw [checkFields_ret] at h
    cases hf : (CreateEditTag.checkName b slugMake action.Tag model w r0).1 with
    | next r1 => rw [hf] at h; simp at h
    | ret r1 => rw [hf] at h; simp at h
    | panic =>
      have hp := checkName_panic b slugMake action.Tag model w r0 hf
      refine ⟨?_, ?_, hp.1, hp.2.1, hp.2.2⟩
      · intro hn
        simp [CreateEditTag.checkName, hn] at hf
      · by_contra hl
        have hl2 : len model.Name > 30 := by omega
        by_cases hn : model.Name = ""
        · simp [CreateEditTag.checkName, hn] at hf
        · simp [CreateEditTag.checkName, hn, hl2] at hf
  · rintro ⟨hn, hl, hE, hR, hT⟩
    have hl2 : ¬ len model.Name > 30 := by omega
    obtain ⟨t, ht⟩ := Option.ne_none_iff_exists'.mp hT
    simp [CreateEditTag.checkFields, CreateEditTag.checkName, hn, hl2, bus.Dispatch,
      hE, hR, ht]

/-- C16: with a bound model, (1) against a dispatcher that sets a non-nil
`Result` on every tag query for which it returns no error, `Validate` does not
panic for any Name, Color and Slug: it returns a result. That result is
either the error result of a dispatcher error (of the edit-mode slug lookup,
or of the duplicate lookup when its cause is not `app.ErrNotFound`), or a
result without top-level error in which every violated rule is a field
failure: an empty Name, a Name over the length limit and a Name whose slug
belongs to another tag each give their `name` message, and an empty Color, a
Color that is not 6 bytes long and a Color that `colorRegex` does not match
each give their `color` message. (2) Against any dispatcher, `Validate` panics
exactly when the duplicate lookup is dispatched and returns no error and a nil
`Result` while `Tag` is set: the `Result.ID` of the duplicate lookup is
dereferenced only when that lookup returned no error. The duplicate lookup
runs in the state `stateAtNameChecks` and `Tag` is then `tagAtNameChecks`. -/
theorem C16_validate_does_not_panic (b : Bus σ) (slugMake : String → String)
    (action : CreateEditTag) (model : models.CreateEditTag) (w : World σ)
    (user : Option models.User)
    (hm : action.Model = some model) :
    (SetsResult b →
      ∃ r, (CreateEditTag.Validate b slugMake action w user).ret = some r
        ∧ ((∃ e, r = validate.Error e
            ∧ ((model.Slug ≠ "" ∧ (b.GetTagBySlug w.state model.Slug).1.Err = some e)
              ∨ ((model.Slug ≠ "" → (b.GetTagBySlug w.state model.Slug).1.Err = none)
                ∧ model.Name ≠ "" ∧ len model.Name ≤ 30
                ∧ (b.GetTagBySlug (stateAtNameChecks b model w)
                    (slugMake model.Name)).1.Err = some e
                ∧ errors.Cause e ≠ app.ErrNotFound)))
          ∨ (r.Err = none
            ∧ (model.Slug ≠ "" → (b.GetTagBySlug w.state model.Slug).1.Err = none)
            ∧ (model.Name = "" → r.Messages "name" = ["Name is required."])
            ∧ (model.Name ≠ "" → len model.Name > 30 →
                r.Messages "name" = ["Name must have less than 30 characters."])
            ∧ (model.Name ≠ "" → len model.Name ≤ 30 →
                ∀ d, (b.GetTagBySlug (stateAtNameChecks b model w)
                    (slugMake model.Name)).1 = { Err := none, Result := some d } →
                (tagAtNameChecks b action model w = none
                  ∨ ∃ t, tagAtNameChecks b action model w = some t ∧ t.ID ≠ d.ID) →
                r.Messages "name" = ["This tag name is already in use."])
            ∧ r.Messages "color"
              = (if model.Color = "" then ["Color is required."]
                 else if len model.Color ≠ 6
                   then ["Color must be exactly 6 characters."]
                 else if colorRegex.MatchString model.Color = false
                   then ["Color is invalid."]
                 else []))))
    ∧ ((CreateEditTag.Validate b slugMake action w user).ret = none
      ↔ ((model.Slug ≠ "" → (b.GetTagBySlug w.state model.Slug).1.Err = none)
        ∧ model.Name ≠ "" ∧ len model.Name ≤ 30
        ∧ (b.GetTagBySlug (stateAtNameChecks b model w) (slugMake model.Name)).1.Err
            = none
        ∧ (b.GetTagBySlug (stateAtNameChecks b model w) (slugMake model.Name)).1.Result
            = none
        ∧ tagAtNameChecks b action model w ≠ none)) := by
  by_cases hs : model.Slug = ""
  · have e1 : CreateEditTag.Validate b slugMake action w user
        = CreateEditTag.checkFields b slugMake action model w validate.Success := by
      simp [CreateEditTag.Validate, hm, hs]
    have e2 : stateAtNameChecks b model w = w.state := by simp [stateAtNameChecks, hs]
    have e3 : tagAtNameChecks b action model w = action.Tag := by
      simp [tagAtNameChecks, hs]
    rw [e1, e2, e3]
    refine ⟨?_, ?_⟩
    · intro hset
      obtain ⟨r, hr, h⟩ := checkFields_result b hset slugMake action model w
      refine ⟨r, hr, ?_⟩
      rcases h with ⟨e, he, hn, hl, hE, hc⟩ | ⟨h0, h1, h2, h3, h4⟩
      · exact Or.inl ⟨e, he, Or.inr ⟨fun h => absurd hs h, hn, hl, hE, hc⟩⟩
      · exact Or.inr ⟨h0, fun h => absurd hs h, h1, h2, h3, h4⟩
    · rw [checkFields_panic_iff]
      constructor
      · rintro ⟨hn, hl, hE, hR, hT⟩
        exact ⟨fun h => absurd hs h, hn, hl, hE, hR, hT⟩
      · rintro ⟨_, hn, hl, hE, hR, hT⟩
        exact ⟨hn, hl, hE, hR, hT⟩
  · have e2 : stateAtNameChecks b model w = (b.GetTagBySlug w.state model.Slug).2 := by
      simp [stateAtNameChecks, hs]
    have e3 : tagAtNameChecks b action model w
        = (b.GetTagBySlug w.state model.Slug).1.Result := by
      simp [tagAtNameChecks, hs]
    rw [e2, e3]
    cases hE1 : (b.GetTagBySlug w.state model.Slug).1.Err with
    | some e =>
      have e1 : (CreateEditTag.Validate b slugMake action w user).ret
          = some (validate.Error e) := by
        simp [CreateEditTag.Validate, hm, hs, bus.Dispatch, hE1]
      rw [e1]
      refine ⟨?_, ?_⟩
      · intro _
        exact ⟨validate.Error e, rfl, Or.inl ⟨e, rfl, Or.inl ⟨hs, rfl⟩⟩⟩
      · constructor
        · intro h
          simp at h
        · rintro ⟨h, _⟩
          have := h hs
          simp at this
    | none =>
      have e1 : CreateEditTag.Validate b slugMake action w user
          = CreateEditTag.checkFields b slugMake
              { action with Tag := (b.GetTagBySlug w.state model.Slug).1.Result } model
              ⟨(b.GetTagBySlug w.state model.Slug).2,
                w.trace ++ [Sent.GetTagBySlug model.Slug]⟩ validate.Success := by
        simp [CreateEditTag.Validate, hm, hs, bus.Dispatch, hE1]
      rw [e1]
      refine ⟨?_, ?_⟩
      · intro hset
        obtain ⟨r, hr, h⟩ := checkFields_result b hset slugMake
          { action with Tag := (b.GetTagBySlug w.state model.Slug).1.Result } model
          ⟨(b.GetTagBySlug w.state model.Slug).2,
            w.trace ++ [Sent.GetTagBySlug model.Slug]⟩
        refine ⟨r, hr, ?_⟩
        rcases h with ⟨e, he, hn, hl, hE, hc⟩ | ⟨h0, h1, h2, h3, h4⟩
        · exact Or.inl ⟨e, he, Or.inr ⟨fun _ => rfl, hn, hl, hE, hc⟩⟩
        · exact Or.inr ⟨h0, fun _ => rfl, h1, h2, h3, h4⟩
      · rw [checkFields_panic_iff]
        constructor
        · rintro ⟨hn, hl, hE, hR, hT⟩
          exact ⟨fun _ => rfl, hn, hl, hE, hR, hT⟩
        · rintro ⟨_, hn, hl, hE, hR, hT⟩
          exact ⟨hn, hl, hE, hR, hT⟩

/-- The dispatcher of a store sets a `Result` whenever it returns no error. -/
theorem Store_bus_setsResult : SetsResult Store.bus := by
  intro s slug
  simp only [Store.bus]
  split <;> simp

/-- Witness of C16. On the store with the tags `bug` and `feature`, renaming
`feature` to `bug` with an empty Color returns a result without error that
holds both field failures. Against a dispatcher that leaves `Result` nil, a
call on an action whose `Tag` is set panics, and the duplicate lookup had
returned no error. -/
theorem C16_validate_does_not_panic_witness :
    (∃ r, (CreateEditTag.Validate Store.bus plainSlug
        ⟨none, some ⟨"feature", "bug", "", true⟩⟩ ⟨twoTags, []⟩ none).ret = some r
      ∧ r.Err = none
      ∧ r.Messages "name" = ["This tag name is already in use."]
      ∧ r.Messages "color" = ["Color is required."])
    ∧ ((CreateEditTag.Validate nilResultBus plainSlug
        ⟨some bugTag, some ⟨"", "insect", "ff00aa", true⟩⟩ ⟨(), []⟩ none).ret = none
      ∧ (nilResultBus.GetTagBySlug
          (stateAtNameChecks nilResultBus ⟨"", "insect", "ff00aa", true⟩ ⟨(), []⟩)
          (plainSlug "insect")).1.Err = none
      ∧ tagAtNameChecks nilResultBus ⟨some bugTag, some ⟨"", "insect", "ff00aa", true⟩⟩
          ⟨"", "insect", "ff00aa", true⟩ ⟨(), []⟩ ≠ none) := by
  refine ⟨?_, ?_⟩
  · obtain ⟨r, hr, h⟩ := (C16_validate_does_not_panic Store.bus plainSlug
      ⟨none, some ⟨"feature", "bug", "", true⟩⟩ ⟨"feature", "bug", "", true⟩
      ⟨twoTags, []⟩ none rfl).1 Store_bus_setsResult
    rcases h with ⟨e, _, h | h⟩ | ⟨h0, _, _, _, h3, h4⟩
    · exact absurd (show (none : Option GoError) = some e from h.2) (by simp)
    · exact absurd (show (none : Option GoError) = some e from h.2.2.2.1) (by simp)
    · exact ⟨r, hr, h0,
        h3 (by decide) (by decide) bugTag rfl (Or.inr ⟨featureTag, rfl, by decide⟩),
        h4.trans rfl⟩
  · have h := (C16_validate_does_not_panic nilResultBus plainSlug
      ⟨some bugTag, some ⟨"", "insect", "ff00aa", true⟩⟩ ⟨"", "insect", "ff00aa", true⟩
      ⟨(), []⟩ none rfl).2.mp (by decide)
    exact ⟨by decide, h.2.2.2.1, h.2.2.2.2.2⟩

/-! ## Validate and the caller -/

/-- C17: `Validate` does not depend on the caller. For each of the three
actions, two runs from the same action state and dispatcher state with any two
`user` arguments (nil, regular, collaborator or administrator) have the same
outcome: the same result, the same action state and the same world.
Authorization is not checked again in `Validate`: for a nil caller, for whom
`IsAuthorized` is false, creating the tag `Bug` on the empty store validates
successfully. -/
theorem C17_validate_ignores_the_caller (b : Bus σ) (slugMake : String → String)
    (w : World σ) (u1 u2 : Option models.User) :
    (∀ action : CreateEditTag,
      CreateEditTag.Validate b slugMake action w u1
        = CreateEditTag.Validate b slugMake action w u2)
    ∧ (∀ action : DeleteTag,
      DeleteTag.Validate b action w u1 = DeleteTag.Validate b action w u2)
    ∧ (∀ action : AssignUnassignTag,
      AssignUnassignTag.Validate b action w u1 = AssignUnassignTag.Validate b action w u2)
    ∧ (CreateEditTag.IsAuthorized ⟨none, some ⟨"", "Bug", "ff00aa", true⟩⟩ none = false
      ∧ (CreateEditTag.Validate Store.bus plainSlug
          ⟨none, some ⟨"", "Bug", "ff00aa", true⟩⟩ ⟨noTags, []⟩ none).ret
        = some validate.Success
      ∧ (CreateEditTag.Validate Store.bus plainSlug
          ⟨none, some ⟨"", "Bug", "ff00aa", true⟩⟩ ⟨noTags, []⟩
          (some administratorUser)).ret
        = some validate.Success
      ∧ (DeleteTag.Validate Store.bus ⟨none, some ⟨"bug"⟩⟩ ⟨twoTags, []⟩
          (some regularUser)).ret
        = (DeleteTag.Validate Store.bus ⟨none, some ⟨"bug"⟩⟩ ⟨twoTags, []⟩
          (some collaboratorUser)).ret) := by
  refine ⟨fun _ => rfl, fun _ => rfl, fun _ => rfl, ?_⟩
  decide

end Fider
